import Mathlib

/-!
Verification development for the PX4 vmount MAVLink input adapters
(`src/modules/vmount/input_mavlink.cpp`).

The file shallowly embeds the three input adapters
(`InputMavlinkROI`, `InputMavlinkCmdMount`, `InputMavlinkGimbalV2`)
over an abstract linearly ordered field `α` standing for the C float/double
scalars.  A float value that the source may test with `PX4_ISFINITE` (or that
may be NaN on the wire) is embedded as `Fl α := Option α`, with `none`
standing for a non-finite value; comparisons against `none` are `false`,
mirroring IEEE NaN comparison semantics.  `M_PI_F` is passed in as an
explicit parameter `pi` so that theorems quantify over it (instantiating it
with the real number pi or any rational approximation).

External collaborators (the map projection, `sqrtf`, `atan2f`,
`get_bearing_to_next_waypoint`, `wrap_pi`) are passed in as a bundle of
abstract functions `GeoPrims`, exactly as the spec designates them external.
The C++ union `ControlData::TypeData` is flattened into disjoint record
fields; none of the code paths embedded here reads a union member that an
overlapping write has clobbered (the `angle` member overlaps only the
`lon`/`lat` bytes of the `lonlat` member, which are always rewritten before
being read again).
-/

namespace Vmount

/-- A C float that may be non-finite: `none` models NaN/inf (anything failing
`PX4_ISFINITE`), `some x` a finite value. -/
abbrev Fl (α : Type) := Option α

/-- Lifted addition; NaN-propagating, like IEEE float addition. -/
def fadd {α : Type} [Add α] : Fl α → Fl α → Fl α
  | some a, some b => some (a + b)
  | _, _ => none

/-- Multiply a possibly-NaN float by a finite constant. -/
def fmulc {α : Type} [Mul α] : Fl α → α → Fl α
  | some a, c => some (a * c)
  | none, _ => none

/-- Subtract a finite constant from a possibly-NaN float. -/
def fsubc {α : Type} [Sub α] : Fl α → α → Fl α
  | some a, c => some (a - c)
  | none, _ => none

/-- Comparison `x > c` on floats: false when `x` is NaN (IEEE comparison
semantics). -/
def fgtb {α : Type} [LinearOrder α] : Fl α → α → Bool
  | some a, c => decide (c < a)
  | none, _ => false

/-- Comparison `x >= c` on floats: false when `x` is NaN (IEEE comparison
semantics). -/
def fgeb {α : Type} [LinearOrder α] : Fl α → α → Bool
  | some a, c => decide (c ≤ a)
  | none, _ => false

/-- Apply a real function to a possibly-NaN float (NaN propagates). -/
def fmap {α : Type} (f : α → α) : Fl α → Fl α
  | some a => some (f a)
  | none => none

/-- C `(int)` cast of a float: truncation toward zero.  The cast of a
non-finite value is unspecified in C; the embedding picks `0`, a value no
claim depends on. -/
def cppIntF {α : Type} [LinearOrderedField α] [FloorRing α] : Fl α → ℤ
  | some a => if 0 ≤ a then ⌊a⌋ else ⌈a⌉
  | none => 0

/-- C `(uint32_t)` cast of a float (used for the flags parameter of
`DO_GIMBAL_MANAGER_ATTITUDE`).  Negative or non-finite inputs are
unspecified in C; the embedding picks `0`, a value no claim depends on. -/
def cppUIntF {α : Type} [LinearOrderedField α] [FloorRing α] : Fl α → ℕ
  | some a => if 0 ≤ a then (⌊a⌋).toNat else 0
  | none => 0

/-- The tag `ControlData::Type` (control_data.h). -/
inductive CDType
  | Neutral
  | Angle
  | LonLat
deriving DecidableEq, Repr

/-- The frame selector `ControlData::TypeData::TypeAngle::Frame`
(control_data.h). -/
inductive Frame
  | AngleBodyFrame
  | AngularRate
  | AngleAbsoluteFrame
deriving DecidableEq, Repr

/-- The normalized control record (`struct ControlData`, control_data.h).
The `type_data` union is flattened: `angle0..2`/`frame0..2` are the
`TypeAngle` member (`angles[i]`, `frames[i]`), the `lonlat_*` fields the
`TypeLonLat` member. -/
structure ControlData (α : Type) where
  type : CDType
  frame0 : Frame
  frame1 : Frame
  frame2 : Frame
  angle0 : Fl α
  angle1 : Fl α
  angle2 : Fl α
  lonlat_lon : Fl α
  lonlat_lat : Fl α
  lonlat_altitude : Fl α
  lonlat_roll_angle : Fl α
  lonlat_pitch_angle_offset : Fl α
  lonlat_yaw_angle_offset : Fl α
  lonlat_pitch_fixed_angle : Fl α
  stabilize_axis0 : Bool
  stabilize_axis1 : Bool
  stabilize_axis2 : Bool
  gimbal_shutter_retract : Bool
deriving DecidableEq, Repr

/-- Modelled from the spec: the initial control record of a freshly
constructed adapter (control_data.h is not among the sources).  Per the spec
the type starts `Neutral`, `gimbal_shutter_retract` is "true only on an
explicit retract request" (hence initially false) and the stabilize flags are
a legacy-protocol opt-in (initially false); the numeric payload starts
indeterminate in C++ and is never read before being written on the embedded
paths, so the embedding picks zeros. -/
def initialControlData (α : Type) [Zero α] : ControlData α where
  type := CDType.Neutral
  frame0 := Frame.AngleBodyFrame
  frame1 := Frame.AngleBodyFrame
  frame2 := Frame.AngleBodyFrame
  angle0 := some 0
  angle1 := some 0
  angle2 := some 0
  lonlat_lon := some 0
  lonlat_lat := some 0
  lonlat_altitude := some 0
  lonlat_roll_angle := some 0
  lonlat_pitch_angle_offset := some 0
  lonlat_yaw_angle_offset := some 0
  lonlat_pitch_fixed_angle := some 0
  stabilize_axis0 := false
  stabilize_axis1 := false
  stabilize_axis2 := false
  gimbal_shutter_retract := false

/-! ### uORB message constants

The numeric values below come from the uORB message definitions
(`vehicle_command.msg`, `vehicle_roi.msg`, `gimbal_manager_set_attitude.msg`),
which are not among the sources; they are modelled from the MAVLink
definitions that those messages mirror.  The claims only depend on the
constants being pairwise distinct. -/

def VEHICLE_CMD_DO_MOUNT_CONFIGURE : ℕ := 204
def VEHICLE_CMD_DO_MOUNT_CONTROL : ℕ := 205
def VEHICLE_CMD_DO_GIMBAL_MANAGER_ATTITUDE : ℕ := 1000

def VEHICLE_MOUNT_MODE_RETRACT : ℤ := 0
def VEHICLE_MOUNT_MODE_NEUTRAL : ℤ := 1
def VEHICLE_MOUNT_MODE_MAVLINK_TARGETING : ℤ := 2
def VEHICLE_MOUNT_MODE_RC_TARGETING : ℤ := 3
def VEHICLE_MOUNT_MODE_GPS_POINT : ℤ := 4

def VEHICLE_CMD_RESULT_ACCEPTED : ℕ := 0

def ROI_NONE : ℕ := 0
def ROI_WPNEXT : ℕ := 1
def ROI_WPINDEX : ℕ := 2
def ROI_LOCATION : ℕ := 3
def ROI_TARGET : ℕ := 4

def GIMBAL_MANAGER_FLAGS_RETRACT : ℕ := 1
def GIMBAL_MANAGER_FLAGS_NEUTRAL : ℕ := 2
def GIMBAL_MANAGER_FLAGS_ROLL_LOCK : ℕ := 4
def GIMBAL_MANAGER_FLAGS_PITCH_LOCK : ℕ := 8
def GIMBAL_MANAGER_FLAGS_YAW_LOCK : ℕ := 16
def GIMBAL_MANAGER_FLAGS_NUDGE : ℕ := 2097152
def GIMBAL_MANAGER_FLAGS_OVERRIDE : ℕ := 4194304
def GIMBAL_MANAGER_FLAGS_NONE : ℕ := 8388608

/-- An inbound `vehicle_command_s`.  Identity fields are naturals, float
parameters are possibly-NaN floats. -/
structure VehicleCommand (α : Type) where
  command : ℕ
  target_system : ℕ
  target_component : ℕ
  source_system : ℕ
  source_component : ℕ
  param1 : Fl α
  param2 : Fl α
  param3 : Fl α
  param4 : Fl α
  param5 : Fl α
  param6 : Fl α
  param7 : Fl α
deriving DecidableEq, Repr

/-- An outbound `vehicle_command_ack_s` (timestamp omitted: wall clock is an
external collaborator). -/
structure Ack where
  command : ℕ
  result : ℕ
  target_system : ℕ
  target_component : ℕ
deriving DecidableEq, Repr

/-- Helper `_ack_vehicle_command`: acknowledgement addressed back to the sender of
`cmd`, result accepted (lines 358-370 and 789-801 of input_mavlink.cpp). -/
def mkAck {α : Type} (cmd : VehicleCommand α) : Ack where
  command := cmd.command
  result := VEHICLE_CMD_RESULT_ACCEPTED
  target_system := cmd.source_system
  target_component := cmd.source_component

/-- Modelled from the spec: the shared base-class helper
`InputBase::control_data_set_lon_lat` (input.cpp, not among the sources).
Per the spec it switches the record to `LonLat`, fills lon/lat/altitude from
its arguments, stores the three additive offsets (defaulting to zero when
the caller passes none, as in the `GpsPoint` dispatch) and pins the fixed
pitch sentinel at -10. -/
def control_data_set_lon_lat {α : Type} [LinearOrderedField α]
    (cd : ControlData α) (lon lat altitude : Fl α)
    (roll_angle pitch_angle_offset yaw_angle_offset : Fl α) : ControlData α :=
  { cd with
    type := CDType.LonLat
    lonlat_lon := lon
    lonlat_lat := lat
    lonlat_altitude := altitude
    lonlat_roll_angle := roll_angle
    lonlat_pitch_angle_offset := pitch_angle_offset
    lonlat_yaw_angle_offset := yaw_angle_offset
    lonlat_pitch_fixed_angle := some (-10) }

/-! ## Legacy mount-command adapter (`InputMavlinkCmdMount`) -/

/-- Session state of `InputMavlinkCmdMount`: configured identity (read once
at construction from `MAV_SYS_ID`/`MAV_COMP_ID`) and the mutable control
record. -/
structure CmdMountState (α : Type) where
  mav_sys_id : ℕ
  mav_comp_id : ℕ
  control_data : ControlData α
deriving DecidableEq, Repr

/-- Result of handling one polled `vehicle_command` in
`InputMavlinkCmdMount::update_impl` (one iteration of the polling loop,
lines 246-350): the new state, whether `*control_data` was set this
iteration, the acknowledgements published, and the final value of
`exit_loop`. -/
structure CmdStepResult (α : Type) where
  state : CmdMountState α
  changed : Bool
  acks : List Ack
  exit_loop : Bool
deriving DecidableEq, Repr

/-- The body of the `DO_MOUNT_CONTROL` switch for sub-mode
`MAVLINK_TARGETING` (lines 276-294): type `Angle`, all frames body-relative,
roll/pitch channels swapped relative to the wire (internal channel 0 takes
wire param2, channel 1 takes wire param1), all inputs scaled from degrees to
radians, and yaw folded from a [0, 2 pi) convention into (-pi, pi] by
subtracting 2 pi when it exceeds pi. -/
def mavlinkTargetingRecord {α : Type} [LinearOrderedField α] (pi : α)
    (cd : ControlData α) (p1 p2 p3 : Fl α) : ControlData α :=
  let deg2rad := pi / 180
  let a2 := fmulc p3 deg2rad
  let a2 := if fgtb a2 pi then fsubc a2 (2 * pi) else a2
  { cd with
    type := CDType.Angle
    frame0 := Frame.AngleBodyFrame
    frame1 := Frame.AngleBodyFrame
    frame2 := Frame.AngleBodyFrame
    angle0 := fmulc p2 deg2rad
    angle1 := fmulc p1 deg2rad
    angle2 := a2 }

/-- The `DO_MOUNT_CONFIGURE` frame-selector mapping (lines 321-340):
0 body-relative, 1 angular-rate, 2 absolute, anything else falls back to
body-relative. -/
def configureFrame (p : ℤ) : Frame :=
  if p = 0 then Frame.AngleBodyFrame
  else if p = 1 then Frame.AngularRate
  else if p = 2 then Frame.AngleAbsoluteFrame
  else Frame.AngleBodyFrame

/-- One iteration of `InputMavlinkCmdMount::update_impl` processing a polled
`vehicle_command` (lines 246-350).  Commands not addressed to the configured
identity (target system differing, or target component neither the
configured one nor broadcast 0) are skipped without touching any state and
the loop continues.  Addressed commands first clear the shutter-retract
flag, then dispatch. -/
def processCommand {α : Type} [LinearOrderedField α] [FloorRing α] (pi : α)
    (s : CmdMountState α) (cmd : VehicleCommand α) : CmdStepResult α :=
  let sysid_correct := cmd.target_system = s.mav_sys_id
  let compid_correct := cmd.target_component = s.mav_comp_id ∨ cmd.target_component = 0
  if ¬sysid_correct ∨ ¬compid_correct then
    { state := s, changed := false, acks := [], exit_loop := false }
  else
    let cd0 := { s.control_data with gimbal_shutter_retract := false }
    if cmd.command = VEHICLE_CMD_DO_MOUNT_CONTROL then
      let m := cppIntF cmd.param7
      let cd :=
        if m = VEHICLE_MOUNT_MODE_RETRACT then
          -- RETRACT sets the shutter flag and falls through to NEUTRAL
          { cd0 with gimbal_shutter_retract := true, type := CDType.Neutral }
        else if m = VEHICLE_MOUNT_MODE_NEUTRAL then
          { cd0 with type := CDType.Neutral }
        else if m = VEHICLE_MOUNT_MODE_MAVLINK_TARGETING then
          mavlinkTargetingRecord pi cd0 cmd.param1 cmd.param2 cmd.param3
        else if m = VEHICLE_MOUNT_MODE_GPS_POINT then
          control_data_set_lon_lat cd0 cmd.param6 cmd.param5 cmd.param4
            (some 0) (some 0) (some 0)
        else
          -- RC_TARGETING and unrecognized sub-modes: no record
          cd0
      let produced :=
        m = VEHICLE_MOUNT_MODE_RETRACT ∨ m = VEHICLE_MOUNT_MODE_NEUTRAL ∨
          m = VEHICLE_MOUNT_MODE_MAVLINK_TARGETING ∨ m = VEHICLE_MOUNT_MODE_GPS_POINT
      -- the acknowledgement is published after the switch, for every
      -- addressed DO_MOUNT_CONTROL regardless of sub-mode (line 306)
      { state := { s with control_data := cd }, changed := decide produced,
        acks := [mkAck cmd], exit_loop := true }
    else if cmd.command = VEHICLE_CMD_DO_MOUNT_CONFIGURE then
      let cd :=
        { cd0 with
          stabilize_axis0 := cppIntF (fadd cmd.param2 (some (1 / 2))) = 1
          stabilize_axis1 := cppIntF (fadd cmd.param3 (some (1 / 2))) = 1
          stabilize_axis2 := cppIntF (fadd cmd.param4 (some (1 / 2))) = 1
          frame0 := configureFrame (cppIntF (fadd cmd.param5 (some (1 / 2))))
          frame1 := configureFrame (cppIntF (fadd cmd.param6 (some (1 / 2))))
          frame2 := configureFrame (cppIntF (fadd cmd.param7 (some (1 / 2))))
          type := CDType.Neutral }
      { state := { s with control_data := cd }, changed := true,
        acks := [mkAck cmd], exit_loop := true }
    else
      -- any other command: keep polling (the shutter flag stays cleared)
      { state := { s with control_data := cd0 }, changed := false,
        acks := [], exit_loop := false }

/-- One wakeup of the legacy polling loop: elapsed wait time in
milliseconds together with the polled command, or `none` when `px4_poll`
returned 0 (timeout). -/
structure CmdPollEvent (α : Type) where
  elapsed : ℤ
  event : Option (VehicleCommand α)
deriving DecidableEq, Repr

/-- The bounded polling loop of `InputMavlinkCmdMount::update_impl`
(lines 226-353): keep polling while nothing forced an exit and the remaining
timeout, decremented by the elapsed wait of each iteration, is still
non-negative.  Returns the final state, whether `*control_data` was set, and
the acknowledgements published during the call.  An exhausted event list
models a wait that never wakes up again. -/
def updateLoop {α : Type} [LinearOrderedField α] [FloorRing α] (pi : α)
    (s : CmdMountState α) (t : ℤ) :
    List (CmdPollEvent α) → CmdMountState α × Bool × List Ack
  | [] => (s, false, [])
  | ev :: rest =>
    if t < 0 then (s, false, [])
    else
      match ev.event with
      | none => (s, false, [])
      | some cmd =>
        let r := processCommand pi s cmd
        if r.exit_loop then (r.state, r.changed, r.acks)
        else
          let rec' := updateLoop pi r.state (t - ev.elapsed) rest
          (rec'.1, r.changed || rec'.2.1, r.acks ++ rec'.2.2)

/-! ## Gimbal-manager adapter (`InputMavlinkGimbalV2`) -/

/-- The angle-assignment block of
`InputMavlinkGimbalV2::_set_control_data_from_set_attitude`
(lines 733-756): switch to `Angle` with body frames, then either nudge
(add) or replace the three angle values, with the `Override` flag (only
meaningful when the target is set) replacing them outright.  The source
stores `pitch_angle` into channel 0, `roll_angle` into channel 1 and
`yaw_angle` into channel 2, mirroring lines 741-748 verbatim. -/
def attAngleStage {α : Type} [LinearOrderedField α] (is_roi_set : Bool)
    (cd : ControlData α) (flags : ℕ)
    (pitch_angle yaw_angle roll_angle : Fl α) : ControlData α :=
  let cd := { cd with
    type := CDType.Angle
    frame0 := Frame.AngleBodyFrame
    frame1 := Frame.AngleBodyFrame
    frame2 := Frame.AngleBodyFrame }
  let cd :=
    if is_roi_set ∧ flags &&& GIMBAL_MANAGER_FLAGS_NUDGE ≠ 0 then
      -- add the incoming angles to the existing angle values
      { cd with
        angle0 := fadd cd.angle0 pitch_angle
        angle1 := fadd cd.angle1 roll_angle
        angle2 := fadd cd.angle2 yaw_angle }
    else
      { cd with angle0 := pitch_angle, angle1 := roll_angle, angle2 := yaw_angle }
  if is_roi_set ∧ flags &&& GIMBAL_MANAGER_FLAGS_OVERRIDE ≠ 0 then
    { cd with angle0 := pitch_angle, angle1 := roll_angle, angle2 := yaw_angle }
  else cd

/-- The finite-rate overrides of
`InputMavlinkGimbalV2::_set_control_data_from_set_attitude`
(lines 758-771): a finite rate switches its axis to angular-rate and
replaces the value (`roll_rate` lands on channel 0, `pitch_rate` on
channel 1, `yaw_rate` on channel 2). -/
def attRateStage {α : Type} [LinearOrderedField α] (cd : ControlData α)
    (pitch_rate yaw_rate roll_rate : Fl α) : ControlData α :=
  let cd :=
    match roll_rate with
    | some r => { cd with frame0 := Frame.AngularRate, angle0 := some r }
    | none => cd
  let cd :=
    match pitch_rate with
    | some r => { cd with frame1 := Frame.AngularRate, angle1 := some r }
    | none => cd
  match yaw_rate with
  | some r => { cd with frame2 := Frame.AngularRate, angle2 := some r }
  | none => cd

/-- The per-axis lock overrides of
`InputMavlinkGimbalV2::_set_control_data_from_set_attitude`
(lines 773-784): a lock flag forces its axis frame to absolute, keeping the
value. -/
def attLockStage {α : Type} [LinearOrderedField α] (cd : ControlData α)
    (flags : ℕ) : ControlData α :=
  let cd :=
    if flags &&& GIMBAL_MANAGER_FLAGS_ROLL_LOCK ≠ 0 then
      { cd with frame0 := Frame.AngleAbsoluteFrame }
    else cd
  let cd :=
    if flags &&& GIMBAL_MANAGER_FLAGS_PITCH_LOCK ≠ 0 then
      { cd with frame1 := Frame.AngleAbsoluteFrame }
    else cd
  if flags &&& GIMBAL_MANAGER_FLAGS_YAW_LOCK ≠ 0 then
    { cd with frame2 := Frame.AngleAbsoluteFrame }
  else cd

/-- Handler `InputMavlinkGimbalV2::_set_control_data_from_set_attitude`
(lines 721-786).  Parameter order follows the source:
`(flags, pitch_angle, pitch_rate, yaw_angle, yaw_rate, roll_angle,
roll_rate)`.  After the Retract/Neutral/None flag dispatch, the source's
sequential mutations are the three stages above, applied in order. -/
def set_control_data_from_set_attitude {α : Type} [LinearOrderedField α]
    (is_roi_set : Bool) (cd : ControlData α) (flags : ℕ)
    (pitch_angle pitch_rate yaw_angle yaw_rate roll_angle roll_rate : Fl α) :
    ControlData α :=
  if flags &&& GIMBAL_MANAGER_FLAGS_RETRACT ≠ 0 then
    cd -- not implemented in ControlData
  else if flags &&& GIMBAL_MANAGER_FLAGS_NEUTRAL ≠ 0 then
    { cd with type := CDType.Neutral }
  else if flags &&& GIMBAL_MANAGER_FLAGS_NONE ≠ 0 then
    cd -- don't do anything
  else
    attLockStage
      (attRateStage (attAngleStage is_roi_set cd flags pitch_angle yaw_angle roll_angle)
        pitch_rate yaw_rate roll_rate)
      flags

/-- The external geodetic/math collaborators: the tangent-plane projection
(`map_projection_project`, taking the stored reference and a lat/lon and
returning planar x/y), `sqrtf`, `atan2f`, `get_bearing_to_next_waypoint`
and `wrap_pi`.  The spec designates all of these as external to this core,
so they are abstract parameters of the embedding. -/
structure GeoPrims (α : Type) where
  proj : α × α → α → α → α × α
  sqrt : α → α
  atan2 : α → α → α
  bearing : α → α → α → α → α
  wrap_pi : α → α

/-- The carrier's `vehicle_global_position_s` as consumed here. -/
structure GlobalPos (α : Type) where
  lat : α
  lon : α
  alt : α
  yaw : α
deriving DecidableEq, Repr

/-- Helper `InputMavlinkGimbalV2::_calculate_pitch` (lines 695-710).  The
projection reference is initialized to the carrier's current position only
if it was never initialized before; both target and carrier are projected
with that reference and the pitch is `atan2` of the vertical delta over the
planar distance.  Returns the pitch together with the (possibly newly
established) projection reference. -/
def calculate_pitch {α : Type} [LinearOrderedField α] (g : GeoPrims α)
    (ref : Option (α × α)) (lon lat altitude : α) (gpos : GlobalPos α) :
    α × (α × α) :=
  let r := ref.getD (gpos.lat, gpos.lon)
  let p1 := g.proj r lat lon
  let p2 := g.proj r gpos.lat gpos.lon
  let dx := p1.1 - p2.1
  let dy := p1.2 - p2.2
  let target_distance := g.sqrt (dx * dx + dy * dy)
  let z := altitude - gpos.alt
  (g.atan2 z target_distance, r)

/-- Helper `InputMavlinkGimbalV2::_transform_lon_lat_to_angle`
(lines 661-693):
switch the record to `Angle` with body-relative frames, zero roll, pitch
either the stored fixed pitch (when it compares `>= -pi`; a NaN fixed pitch
fails the comparison) or the computed elevation, yaw the great-circle
bearing minus carrier yaw; then add the stored pitch/yaw offsets and wrap
the yaw.  Returns the updated record and projection reference. -/
def transform_lon_lat_to_angle {α : Type} [LinearOrderedField α]
    (g : GeoPrims α) (pi : α) (cd : ControlData α) (ref : Option (α × α))
    (roi_lon roi_lat roi_alt : α) (gpos : GlobalPos α) :
    ControlData α × Option (α × α) :=
  let cd := { cd with
    type := CDType.Angle
    frame0 := Frame.AngleBodyFrame
    frame1 := Frame.AngleBodyFrame
    frame2 := Frame.AngleBodyFrame
    angle0 := some 0 }
  let pitch :=
    if fgeb cd.lonlat_pitch_fixed_angle (-pi) then
      (cd.lonlat_pitch_fixed_angle, ref)
    else
      let cp := calculate_pitch g ref roi_lon roi_lat roi_alt gpos
      (some cp.1, some cp.2)
  let a1 := pitch.1
  let a2 : Fl α := some (g.bearing gpos.lat gpos.lon roi_lat roi_lon - gpos.yaw)
  let a1 := fadd a1 cd.lonlat_pitch_angle_offset
  let a2 := fadd a2 cd.lonlat_yaw_angle_offset
  let a2 := fmap g.wrap_pi a2
  ({ cd with angle1 := a1, angle2 := a2 }, pitch.2)

/-- Session state of `InputMavlinkGimbalV2`: configured identity, the
mutable control record, the remembered ROI mode, the target-set flag and
the (lazily anchored) map projection reference. -/
structure V2State (α : Type) where
  mav_sys_id : ℕ
  mav_comp_id : ℕ
  control_data : ControlData α
  is_roi_set : Bool
  cur_roi_mode : ℕ
  projection_reference : Option (α × α)
deriving DecidableEq, Repr

/-- Modelled from the spec: the session state of a freshly constructed
gimbal-manager adapter (the member initializers live in input_mavlink.h,
not among the sources).  Per the spec the target-set flag becomes true only
"once any ROI other than None is accepted", so it starts false; no ROI has
been remembered and the projection anchor is not yet established. -/
def v2InitialState (α : Type) [LinearOrderedField α] (sysid compid : ℕ) :
    V2State α where
  mav_sys_id := sysid
  mav_comp_id := compid
  control_data := initialControlData α
  is_roi_set := false
  cur_roi_mode := ROI_NONE
  projection_reference := none

/-- A `gimbal_manager_set_attitude_s` as consumed by the adapter: the flag
bitset, the Euler angles the source extracts from the quaternion via the
external matrix library (`phi` is called pitch, `theta` roll, `psi` yaw in
lines 563-565) and the three angular velocities, which may be NaN. -/
structure SetAttMsg (α : Type) where
  flags : ℕ
  q_pitch : Fl α
  q_roll : Fl α
  q_yaw : Fl α
  vx : Fl α
  vy : Fl α
  vz : Fl α
deriving DecidableEq, Repr

/-- A `vehicle_roi_s`. -/
structure RoiMsg (α : Type) where
  mode : ℕ
  lon : α
  lat : α
  alt : α
  roll_offset : Fl α
  pitch_offset : Fl α
  yaw_offset : Fl α
deriving DecidableEq, Repr

/-- The `gimbal_manager_set_attitude` branch of
`InputMavlinkGimbalV2::update_impl` (lines 559-570): the handler is called
with pitch/yaw angles from the Euler decomposition and the rates wired as
`pitch_rate := angular_velocity_y`, `yaw_rate := angular_velocity_z`,
`roll_rate := angular_velocity_x`. -/
def v2_process_att {α : Type} [LinearOrderedField α]
    (s : V2State α) (m : SetAttMsg α) : V2State α :=
  let cd := set_control_data_from_set_attitude s.is_roi_set s.control_data
    m.flags m.q_pitch m.vy m.q_yaw m.vz m.q_roll m.vx
  { s with control_data := cd }

/-- The `vehicle_roi` branch of `InputMavlinkGimbalV2::update_impl`
(lines 572-614).  Returns the new state, whether `*control_data` was set,
and the value this branch leaves in `exit_loop` (false for the
unimplemented `ROI_TARGET` and unknown modes, which keep polling). -/
def v2_process_roi {α : Type} [LinearOrderedField α] (g : GeoPrims α)
    (pi : α) (s : V2State α) (r : RoiMsg α) (cur_sp : α × α × α)
    (gpos : GlobalPos α) : V2State α × Bool × Bool :=
  let cd := { s.control_data with gimbal_shutter_retract := false }
  if r.mode = ROI_NONE then
    let cd := { cd with type := CDType.Neutral }
    ({ s with control_data := cd, is_roi_set := false, cur_roi_mode := r.mode },
     true, true)
  else if r.mode = ROI_WPNEXT then
    let cd := { cd with
      lonlat_pitch_fixed_angle := some (-10)
      lonlat_roll_angle := r.roll_offset
      lonlat_pitch_angle_offset := r.pitch_offset
      lonlat_yaw_angle_offset := r.yaw_offset }
    let tr := transform_lon_lat_to_angle g pi cd s.projection_reference
      cur_sp.1 cur_sp.2.1 cur_sp.2.2 gpos
    ({ s with control_data := tr.1, projection_reference := tr.2, is_roi_set := true, cur_roi_mode := r.mode },
     true, true)
  else if r.mode = ROI_LOCATION then
    let tr := transform_lon_lat_to_angle g pi cd s.projection_reference
      r.lon r.lat r.alt gpos
    ({ s with control_data := tr.1, projection_reference := tr.2, is_roi_set := true, cur_roi_mode := r.mode },
     true, true)
  else
    -- ROI_TARGET (unimplemented) and unknown modes: keep polling; the
    -- shutter flag was still cleared at the top of the branch
    ({ s with control_data := cd }, false, false)

/-- The position-setpoint branch of `InputMavlinkGimbalV2::update_impl`
(lines 617-629): only a remembered `ROI_WPNEXT` re-emits from the fresh
setpoint; otherwise the stream is drained and polling continues. -/
def v2_process_sp {α : Type} [LinearOrderedField α] (g : GeoPrims α)
    (pi : α) (s : V2State α) (cur_sp : α × α × α) (gpos : GlobalPos α) :
    V2State α × Bool × Bool :=
  if s.cur_roi_mode = ROI_WPNEXT then
    let tr := transform_lon_lat_to_angle g pi s.control_data
      s.projection_reference cur_sp.1 cur_sp.2.1 cur_sp.2.2 gpos
    ({ s with control_data := tr.1, projection_reference := tr.2 },
     true, true)
  else
    (s, false, false)

/-- The `vehicle_command` branch of `InputMavlinkGimbalV2::update_impl`
(lines 631-654).  Unlike the legacy adapter, a broadcast target system (0)
is also accepted.  A `DO_GIMBAL_MANAGER_ATTITUDE` invokes the attitude
handler with `param5` reinterpreted as the flag bitset, `param3` as BOTH the
pitch angle and the yaw angle, `param1`/`param2` as pitch/yaw rates, and the
roll angle/rate left at the handler's defaults; it is then acknowledged.
The default arguments are declared in input_mavlink.h (not among the
sources); modelled from the spec: the command path takes no roll input, so
the roll angle defaults to zero and the roll rate to non-finite (absent).
Returns state, changed, acks, exit_loop. -/
def v2_process_cmd {α : Type} [LinearOrderedField α] [FloorRing α]
    (s : V2State α) (c : VehicleCommand α) :
    V2State α × Bool × List Ack × Bool :=
  let sysid_correct := c.target_system = s.mav_sys_id ∨ c.target_system = 0
  let compid_correct := c.target_component = s.mav_comp_id ∨ c.target_component = 0
  if ¬sysid_correct ∨ ¬compid_correct then
    (s, false, [], false)
  else if c.command = VEHICLE_CMD_DO_GIMBAL_MANAGER_ATTITUDE then
    let cd := set_control_data_from_set_attitude s.is_roi_set s.control_data
      (cppUIntF c.param5) c.param3 c.param1 c.param3 c.param2 (some 0) none
    ({ s with control_data := cd }, true, [mkAck c], true)
  else
    (s, false, [], false)

/-- Everything one wakeup of the gimbal-manager polling loop can observe:
optional fresh messages on the attitude-set, ROI and command streams,
whether the position-setpoint stream has fresh data, plus the ambient
current setpoint and global position (read on demand via `orb_copy`). -/
structure V2Wake (α : Type) where
  att : Option (SetAttMsg α)
  roi : Option (RoiMsg α)
  sp_updated : Bool
  cur_sp : α × α × α
  cmd : Option (VehicleCommand α)
  gpos : GlobalPos α

/-- One wakeup of `InputMavlinkGimbalV2::update_impl` (lines 553-655):
the four streams are inspected in fixed priority order (attitude-set, ROI,
position-setpoint, command), a later branch's record overwriting an earlier
one's.  Returns the state, whether `*control_data` was set during this
wakeup, the acknowledgements published and the final `exit_loop` value. -/
def v2_process_wake {α : Type} [LinearOrderedField α] [FloorRing α]
    (g : GeoPrims α) (pi : α) (s : V2State α) (w : V2Wake α) :
    V2State α × Bool × List Ack × Bool :=
  let r1 :=
    match w.att with
    | some m => (v2_process_att s m, true)
    | none => (s, false)
  let r2 :=
    match w.roi with
    | some r => v2_process_roi g pi r1.1 r w.cur_sp w.gpos
    | none => (r1.1, false, true)
  let r3 :=
    if w.sp_updated then v2_process_sp g pi r2.1 w.cur_sp w.gpos
    else (r2.1, false, true)
  let r4 :=
    match w.cmd with
    | some c => v2_process_cmd r3.1 c
    | none => (r3.1, false, [], true)
  (r4.1, r1.2 || r2.2.1 || r3.2.1 || r4.2.1, r4.2.2.1,
    r2.2.2 && r3.2.2 && r4.2.2.2)

/-- The gimbal-manager adapter's state evolution across a sequence of
wakeups (spanning update calls: the state persists in the adapter
instance). -/
def v2_run {α : Type} [LinearOrderedField α] [FloorRing α] (g : GeoPrims α)
    (pi : α) (s : V2State α) (l : List (V2Wake α)) : V2State α :=
  l.foldl (fun s w => (v2_process_wake g pi s w).1) s

/-- One step of the "most recently accepted ROI mode" bookkeeping: a wake
carrying an ROI event whose mode the gimbal-manager adapter accepts
(`None`, `NextWaypoint` or `FixedLocation`) replaces the remembered mode;
the unimplemented `Target` and unknown modes are skipped. -/
def roiAccStep {α : Type} (acc : Option ℕ) (w : V2Wake α) : Option ℕ :=
  match w.roi with
  | some r =>
    if r.mode = ROI_NONE ∨ r.mode = ROI_WPNEXT ∨ r.mode = ROI_LOCATION then
      some r.mode
    else acc
  | none => acc

/-- The mode of the most recent ROI event in `l` that the gimbal-manager
adapter accepts, if any. -/
def lastAcceptedRoiMode {α : Type} (l : List (V2Wake α)) : Option ℕ :=
  l.foldl roiAccStep none

/-! ## ROI adapter (`InputMavlinkROI`) -/

/-- Session state of `InputMavlinkROI`: the mutable control record and the
remembered ROI mode. -/
structure RoiState (α : Type) where
  control_data : ControlData α
  cur_roi_mode : ℕ
deriving DecidableEq, Repr

/-- The `vehicle_roi` branch of `InputMavlinkROI::update_impl`
(lines 112-144): clear the shutter flag, dispatch on the mode (`Target` is
unimplemented and produces no output), and remember the mode
unconditionally (line 143).  Returns the state and whether `*control_data`
was set. -/
def roi_process_roi {α : Type} [LinearOrderedField α] (s : RoiState α)
    (r : RoiMsg α) (cur_sp : α × α × α) : RoiState α × Bool :=
  let cd := { s.control_data with gimbal_shutter_retract := false }
  if r.mode = ROI_NONE then
    ({ control_data := { cd with type := CDType.Neutral },
       cur_roi_mode := r.mode }, true)
  else if r.mode = ROI_WPNEXT then
    let cd := { cd with
      type := CDType.LonLat
      lonlat_lon := some cur_sp.1
      lonlat_lat := some cur_sp.2.1
      lonlat_altitude := some cur_sp.2.2
      lonlat_pitch_fixed_angle := some (-10)
      lonlat_roll_angle := r.roll_offset
      lonlat_pitch_angle_offset := r.pitch_offset
      lonlat_yaw_angle_offset := r.yaw_offset }
    ({ control_data := cd, cur_roi_mode := r.mode }, true)
  else if r.mode = ROI_LOCATION then
    ({ control_data := control_data_set_lon_lat cd (some r.lon) (some r.lat)
         (some r.alt) (some 0) (some 0) (some 0),
       cur_roi_mode := r.mode }, true)
  else
    -- ROI_TARGET and unknown modes: no output, but the mode is remembered
    ({ control_data := cd, cur_roi_mode := r.mode }, false)

/-- One wakeup of `InputMavlinkROI::update_impl` (lines 88-160): the ROI
branch, then the position-setpoint branch (which re-emits only for a
remembered `NextWaypoint` and otherwise just drains the stream). -/
def roi_process_wake {α : Type} [LinearOrderedField α] (s : RoiState α)
    (roi : Option (RoiMsg α)) (sp_updated : Bool) (cur_sp : α × α × α) :
    RoiState α × Bool :=
  let r1 :=
    match roi with
    | some r => roi_process_roi s r cur_sp
    | none => (s, false)
  if sp_updated then
    if r1.1.cur_roi_mode = ROI_WPNEXT then
      let cd := { r1.1.control_data with
        lonlat_lon := some cur_sp.1
        lonlat_lat := some cur_sp.2.1
        lonlat_altitude := some cur_sp.2.2 }
      ({ r1.1 with control_data := cd }, true)
    else
      r1
  else r1

/-! ## Concrete instances used by witnesses -/

/-- A concrete instantiation of the external geodetic primitives, used to
evaluate witnesses over `ℚ`. -/
def testGeo : GeoPrims ℚ where
  proj := fun r la lo => (la - r.1, lo - r.2)
  sqrt := fun x => x
  atan2 := fun z d => z - d
  bearing := fun a b c d => a + b + c + d
  wrap_pi := fun x => x

/-- Legacy-adapter state with configured identity (sysid 1, compid 1). -/
def testCmdState : CmdMountState ℚ where
  mav_sys_id := 1
  mav_comp_id := 1
  control_data := initialControlData ℚ

/-- A command whose every float parameter is zero, for building test
commands. -/
def testBaseCmd : VehicleCommand ℚ where
  command := 0
  target_system := 1
  target_component := 1
  source_system := 42
  source_component := 7
  param1 := some 0
  param2 := some 0
  param3 := some 0
  param4 := some 0
  param5 := some 0
  param6 := some 0
  param7 := some 0

/-- A `DO_MOUNT_CONTROL` addressed to system 1 but component 5. -/
def testCmdC1 : VehicleCommand ℚ :=
  { testBaseCmd with
    command := VEHICLE_CMD_DO_MOUNT_CONTROL
    target_component := 5
    param7 := some 2 }

/-- An addressed `DO_MOUNT_CONTROL` with sub-mode `MAVLINK_TARGETING`,
param1 = 10 (degrees), param2 = 20 (degrees). -/
def testCmdC2 : VehicleCommand ℚ :=
  { testBaseCmd with
    command := VEHICLE_CMD_DO_MOUNT_CONTROL
    param1 := some 10
    param2 := some 20
    param7 := some 2 }

/-- An addressed `DO_MOUNT_CONTROL` with sub-mode `MAVLINK_TARGETING` whose
param3 converts (with pi instantiated at 3) to yaw 3 pi / 2. -/
def testCmdC3 : VehicleCommand ℚ :=
  { testBaseCmd with
    command := VEHICLE_CMD_DO_MOUNT_CONTROL
    param3 := some 270
    param7 := some 2 }

/-- An addressed `DO_MOUNT_CONTROL` with the unsupported sub-mode
`RC_TARGETING`. -/
def testCmdC7 : VehicleCommand ℚ :=
  { testBaseCmd with
    command := VEHICLE_CMD_DO_MOUNT_CONTROL
    param7 := some 3 }

/-- Gimbal-manager adapter state with configured identity (1, 1). -/
def testV2State : V2State ℚ := v2InitialState ℚ 1 1

/-- A control record already in `Angle` mode with angle values 1, 2, 3. -/
def testCdAngle : ControlData ℚ :=
  { initialControlData ℚ with
    type := CDType.Angle
    angle0 := some 1
    angle1 := some 2
    angle2 := some 3 }

/-- A `DO_GIMBAL_MANAGER_ATTITUDE` with param3 = 5, zero flags, and
non-finite rate parameters. -/
def testCmdC10 : VehicleCommand ℚ :=
  { testBaseCmd with
    command := VEHICLE_CMD_DO_GIMBAL_MANAGER_ATTITUDE
    param1 := none
    param2 := none
    param3 := some 5
    param5 := some 0 }

/-- A carrier global position for witnesses. -/
def testGpos : GlobalPos ℚ where
  lat := 10
  lon := 20
  alt := 30
  yaw := 1

/-- A control record carrying a fixed pitch of -1 and a pitch offset of 2. -/
def testCdC6 : ControlData ℚ :=
  { initialControlData ℚ with
    lonlat_pitch_fixed_angle := some (-1)
    lonlat_pitch_angle_offset := some 2 }

/-- An addressed `DO_MOUNT_CONTROL` with sub-mode `RETRACT`. -/
def testCmdRetract : VehicleCommand ℚ :=
  { testBaseCmd with
    command := VEHICLE_CMD_DO_MOUNT_CONTROL
    param7 := some 0 }

/-- A gimbal-manager state whose control record has the shutter-retract
flag raised (unreachable in the real adapter; used to exhibit that the
attitude-set path performs no reset). -/
def testV2Retract : V2State ℚ :=
  { testV2State with control_data :=
      { initialControlData ℚ with gimbal_shutter_retract := true } }

/-- A plain attitude-set message: zero flags, angles (1, 2, 3), no rates. -/
def testAttMsg : SetAttMsg ℚ where
  flags := 0
  q_pitch := some 1
  q_roll := some 2
  q_yaw := some 3
  vx := none
  vy := none
  vz := none

/-- A wake carrying only the attitude-set message above. -/
def testWakeAtt : V2Wake ℚ where
  att := some testAttMsg
  roi := none
  sp_updated := false
  cur_sp := (0, 0, 0)
  cmd := none
  gpos := testGpos

/-- An ROI message with mode `None`. -/
def testRoiNone : RoiMsg ℚ where
  mode := ROI_NONE
  lon := 0
  lat := 0
  alt := 0
  roll_offset := some 0
  pitch_offset := some 0
  yaw_offset := some 0

/-- A wake carrying only the `None` ROI event. -/
def testWakeRoiNone : V2Wake ℚ :=
  { testWakeAtt with att := none, roi := some testRoiNone }

/-- An ROI message with mode `FixedLocation`. -/
def testRoiLocation : RoiMsg ℚ :=
  { testRoiNone with mode := ROI_LOCATION, lon := 1, lat := 2, alt := 3 }

/-- A wake carrying only the `FixedLocation` ROI event. -/
def testWakeRoiLocation : V2Wake ℚ :=
  { testWakeAtt with att := none, roi := some testRoiLocation }

/-- An ROI-adapter state remembering mode `Target`. -/
def testRoiState : RoiState ℚ where
  control_data := initialControlData ℚ
  cur_roi_mode := ROI_TARGET

/-! ## Claim theorems -/

/-- Helper: an addressed `DO_MOUNT_CONTROL` with sub-mode
`MAVLINK_TARGETING` rewrites `processCommand` to the targeting record with
an acknowledgement. -/
theorem processCommand_mavlink_targeting {α : Type} [LinearOrderedField α]
    [FloorRing α] (pi : α) (s : CmdMountState α) (cmd : VehicleCommand α)
    (hsys : cmd.target_system = s.mav_sys_id)
    (hcomp : cmd.target_component = s.mav_comp_id ∨ cmd.target_component = 0)
    (hcmd : cmd.command = VEHICLE_CMD_DO_MOUNT_CONTROL)
    (hmode : cppIntF cmd.param7 = VEHICLE_MOUNT_MODE_MAVLINK_TARGETING) :
    processCommand pi s cmd =
      { state := { s with control_data :=
          (mavlinkTargetingRecord pi
            { s.control_data with gimbal_shutter_retract := false }
            cmd.param1 cmd.param2 cmd.param3) },
        changed := true, acks := [mkAck cmd], exit_loop := true } := by
  rcases hcomp with hc | hc <;>
    simp [processCommand, hsys, hc, hcmd, hmode,
      VEHICLE_MOUNT_MODE_MAVLINK_TARGETING, VEHICLE_MOUNT_MODE_RETRACT,
      VEHICLE_MOUNT_MODE_NEUTRAL, VEHICLE_MOUNT_MODE_GPS_POINT]

/-- C1: a command whose target system differs from the configured system
id, or whose target component is neither the configured component id nor
broadcast 0, is skipped by the legacy adapter: state untouched, no record,
no acknowledgement, and the polling loop continues on the remaining
timeout. -/
theorem claim_C1_unaddressed_command_skipped {α : Type}
    [LinearOrderedField α] [FloorRing α] (pi : α) (s : CmdMountState α)
    (cmd : VehicleCommand α)
    (h : ¬(cmd.target_system = s.mav_sys_id ∧
      (cmd.target_component = s.mav_comp_id ∨ cmd.target_component = 0))) :
    processCommand pi s cmd =
      { state := s, changed := false, acks := [], exit_loop := false } ∧
    ∀ (t e : ℤ) (rest : List (CmdPollEvent α)), 0 ≤ t →
      updateLoop pi s t ({ elapsed := e, event := some cmd } :: rest) =
        updateLoop pi s (t - e) rest := by
  have hstep : processCommand pi s cmd =
      { state := s, changed := false, acks := [], exit_loop := false } := by
    rw [processCommand, if_pos]
    rw [Decidable.or_iff_not_imp_left]
    intro hs
    rw [Decidable.not_not] at hs
    intro hc
    exact h ⟨hs, hc⟩
  refine ⟨hstep, ?_⟩
  intro t e rest ht
  rw [updateLoop, if_neg (by omega)]
  simp [hstep]

/-- C1 witness: with configured identity (1, 1), a command with
target_component = 5 is skipped. -/
theorem claim_C1_witness :
    (¬(testCmdC1.target_system = testCmdState.mav_sys_id ∧
      (testCmdC1.target_component = testCmdState.mav_comp_id ∨
        testCmdC1.target_component = 0))) ∧
    (processCommand (3 : ℚ) testCmdState testCmdC1 =
      { state := testCmdState, changed := false, acks := [],
        exit_loop := false } ∧
    ∀ (t e : ℤ) (rest : List (CmdPollEvent ℚ)), 0 ≤ t →
      updateLoop 3 testCmdState t
          ({ elapsed := e, event := some testCmdC1 } :: rest) =
        updateLoop 3 testCmdState (t - e) rest) :=
  ⟨by decide, claim_C1_unaddressed_command_skipped 3 testCmdState testCmdC1
    (by decide)⟩

/-- C2: an addressed `DO_MOUNT_CONTROL` with sub-mode `MAVLINK_TARGETING`
produces an `Angle` record with body-relative frames, internal channel 0
(roll) = wire param2 scaled by pi/180, channel 1 (pitch) = wire param1
scaled by pi/180 and channel 2 (yaw) = wire param3 scaled by pi/180 before
the (-pi, pi] normalization. -/
theorem claim_C2_mavlink_targeting_channel_swap {α : Type}
    [LinearOrderedField α] [FloorRing α] (pi : α) (s : CmdMountState α)
    (cmd : VehicleCommand α) (p1 p2 p3 : α)
    (hsys : cmd.target_system = s.mav_sys_id)
    (hcomp : cmd.target_component = s.mav_comp_id ∨ cmd.target_component = 0)
    (hcmd : cmd.command = VEHICLE_CMD_DO_MOUNT_CONTROL)
    (hmode : cppIntF cmd.param7 = VEHICLE_MOUNT_MODE_MAVLINK_TARGETING)
    (h1 : cmd.param1 = some p1) (h2 : cmd.param2 = some p2)
    (h3 : cmd.param3 = some p3) :
    (processCommand pi s cmd).changed = true ∧
    (processCommand pi s cmd).state.control_data.type = CDType.Angle ∧
    (processCommand pi s cmd).state.control_data.frame0 = Frame.AngleBodyFrame ∧
    (processCommand pi s cmd).state.control_data.frame1 = Frame.AngleBodyFrame ∧
    (processCommand pi s cmd).state.control_data.frame2 = Frame.AngleBodyFrame ∧
    (processCommand pi s cmd).state.control_data.angle0 = some (p2 * (pi / 180)) ∧
    (processCommand pi s cmd).state.control_data.angle1 = some (p1 * (pi / 180)) ∧
    (processCommand pi s cmd).state.control_data.angle2 =
      (if pi < p3 * (pi / 180) then some (p3 * (pi / 180) - 2 * pi)
       else some (p3 * (pi / 180))) := by
  rw [processCommand_mavlink_targeting pi s cmd hsys hcomp hcmd hmode]
  simp [mavlinkTargetingRecord, fmulc, fgtb, fsubc, h1, h2, h3]

/-- C2 witness: param1 = 10, param2 = 20 yield internal roll (channel 0)
20·(pi/180) and internal pitch (channel 1) 10·(pi/180). -/
theorem claim_C2_witness :
    (testCmdC2.target_system = testCmdState.mav_sys_id ∧
     (testCmdC2.target_component = testCmdState.mav_comp_id ∨
       testCmdC2.target_component = 0) ∧
     testCmdC2.command = VEHICLE_CMD_DO_MOUNT_CONTROL ∧
     cppIntF testCmdC2.param7 = VEHICLE_MOUNT_MODE_MAVLINK_TARGETING ∧
     testCmdC2.param1 = some 10 ∧ testCmdC2.param2 = some 20 ∧
     testCmdC2.param3 = some 0) ∧
    ((processCommand (3 : ℚ) testCmdState testCmdC2).changed = true ∧
     (processCommand (3 : ℚ) testCmdState testCmdC2).state.control_data.type = CDType.Angle ∧
     (processCommand (3 : ℚ) testCmdState testCmdC2).state.control_data.frame0 = Frame.AngleBodyFrame ∧
     (processCommand (3 : ℚ) testCmdState testCmdC2).state.control_data.frame1 = Frame.AngleBodyFrame ∧
     (processCommand (3 : ℚ) testCmdState testCmdC2).state.control_data.frame2 = Frame.AngleBodyFrame ∧
     (processCommand (3 : ℚ) testCmdState testCmdC2).state.control_data.angle0 = some ((20 : ℚ) * (3 / 180)) ∧
     (processCommand (3 : ℚ) testCmdState testCmdC2).state.control_data.angle1 = some ((10 : ℚ) * (3 / 180)) ∧
     (processCommand (3 : ℚ) testCmdState testCmdC2).state.control_data.angle2 =
       (if (3 : ℚ) < 0 * (3 / 180) then some ((0 : ℚ) * (3 / 180) - 2 * 3)
        else some ((0 : ℚ) * (3 / 180)))) :=
  ⟨⟨by decide, by decide, by decide, by decide, by decide, by decide, by decide⟩,
   claim_C2_mavlink_targeting_channel_swap 3 testCmdState testCmdC2 10 20 0
     (by decide) (by decide) (by decide) (by decide) (by decide) (by decide)
     (by decide)⟩

/-- C3: for an addressed `MAVLINK_TARGETING` command whose converted yaw
lies in [0, 2·pi), the stored yaw lies in (-pi, pi]: 2·pi is subtracted
exactly when the converted yaw exceeds pi. -/
theorem claim_C3_yaw_normalization {α : Type} [LinearOrderedField α]
    [FloorRing α] (pi : α) (s : CmdMountState α) (cmd : VehicleCommand α)
    (p3 : α) (hpi : 0 < pi)
    (hsys : cmd.target_system = s.mav_sys_id)
    (hcomp : cmd.target_component = s.mav_comp_id ∨ cmd.target_component = 0)
    (hcmd : cmd.command = VEHICLE_CMD_DO_MOUNT_CONTROL)
    (hmode : cppIntF cmd.param7 = VEHICLE_MOUNT_MODE_MAVLINK_TARGETING)
    (h3 : cmd.param3 = some p3)
    (hy0 : 0 ≤ p3 * (pi / 180)) (hy1 : p3 * (pi / 180) < 2 * pi) :
    ∃ y : α, (processCommand pi s cmd).state.control_data.angle2 = some y ∧
      -pi < y ∧ y ≤ pi ∧
      (pi < p3 * (pi / 180) → y = p3 * (pi / 180) - 2 * pi) ∧
      (¬pi < p3 * (pi / 180) → y = p3 * (pi / 180)) := by
  rw [processCommand_mavlink_targeting pi s cmd hsys hcomp hcmd hmode]
  simp only [mavlinkTargetingRecord, fmulc, fgtb, fsubc, h3]
  by_cases hgt : pi < p3 * (pi / 180)
  · refine ⟨p3 * (pi / 180) - 2 * pi, ?_, by linarith, by linarith,
      fun _ => rfl, fun hn => absurd hgt hn⟩
    simp [hgt]
  · refine ⟨p3 * (pi / 180), ?_, by linarith, by linarith,
      fun hc => absurd hc hgt, fun _ => rfl⟩
    simp [hgt]

/-- C3 witness: with pi instantiated at 3 and param3 = 270 degrees the
converted yaw is 3·pi/2 = 9/2 and the stored yaw is -pi/2 = -3/2. -/
theorem claim_C3_witness :
    ((0 : ℚ) < 3 ∧ testCmdC3.target_system = testCmdState.mav_sys_id ∧
     (testCmdC3.target_component = testCmdState.mav_comp_id ∨
       testCmdC3.target_component = 0) ∧
     testCmdC3.command = VEHICLE_CMD_DO_MOUNT_CONTROL ∧
     cppIntF testCmdC3.param7 = VEHICLE_MOUNT_MODE_MAVLINK_TARGETING ∧
     testCmdC3.param3 = some 270 ∧
     (0 : ℚ) ≤ 270 * (3 / 180) ∧ (270 : ℚ) * (3 / 180) < 2 * 3) ∧
    -- conclusion of the theorem at this input:
    (∃ y : ℚ,
      (processCommand (3 : ℚ) testCmdState testCmdC3).state.control_data.angle2 = some y ∧
      -3 < y ∧ y ≤ 3 ∧
      ((3 : ℚ) < 270 * (3 / 180) → y = 270 * (3 / 180) - 2 * 3) ∧
      (¬(3 : ℚ) < 270 * (3 / 180) → y = 270 * (3 / 180))) :=
  ⟨⟨by norm_num, by decide, by decide, by decide, by decide, by decide,
    by norm_num, by norm_num⟩,
   claim_C3_yaw_normalization 3 testCmdState testCmdC3 270 (by norm_num)
     (by decide) (by decide) (by decide) (by decide) (by decide)
     (by norm_num) (by norm_num)⟩

/-- C7 counterexample: an addressed `DO_MOUNT_CONTROL` with sub-mode
`RC_TARGETING` yields no control record, yet the adapter DOES publish an
acknowledgement and DOES exit the polling loop (`exit_loop` stays true),
contradicting the claim that such commands are silently skipped with
polling continuing. -/
theorem claim_C7_counterexample :
    (processCommand (3 : ℚ) testCmdState testCmdC7).changed = false ∧
    (processCommand (3 : ℚ) testCmdState testCmdC7).acks = [mkAck testCmdC7] ∧
    (processCommand (3 : ℚ) testCmdState testCmdC7).acks ≠ [] ∧
    (processCommand (3 : ℚ) testCmdState testCmdC7).exit_loop = true := by
  decide

/-- C7 (amended): an addressed `DO_MOUNT_CONTROL` whose sub-mode is
`RC_TARGETING` or unrecognized produces no control record, but it is still
acknowledged (result accepted, addressed to the sender) and the polling
loop exits, returning "no change" for the cycle instead of continuing to
poll. -/
theorem claim_C7_unsupported_submode_acked_and_exits {α : Type}
    [LinearOrderedField α] [FloorRing α] (pi : α) (s : CmdMountState α)
    (cmd : VehicleCommand α)
    (hsys : cmd.target_system = s.mav_sys_id)
    (hcomp : cmd.target_component = s.mav_comp_id ∨ cmd.target_component = 0)
    (hcmd : cmd.command = VEHICLE_CMD_DO_MOUNT_CONTROL)
    (hmode : cppIntF cmd.param7 = VEHICLE_MOUNT_MODE_RC_TARGETING ∨
      (cppIntF cmd.param7 ≠ VEHICLE_MOUNT_MODE_RETRACT ∧
       cppIntF cmd.param7 ≠ VEHICLE_MOUNT_MODE_NEUTRAL ∧
       cppIntF cmd.param7 ≠ VEHICLE_MOUNT_MODE_MAVLINK_TARGETING ∧
       cppIntF cmd.param7 ≠ VEHICLE_MOUNT_MODE_GPS_POINT)) :
    processCommand pi s cmd =
      { state := { s with control_data :=
          { s.control_data with gimbal_shutter_retract := false } },
        changed := false, acks := [mkAck cmd], exit_loop := true } ∧
    ∀ (t e : ℤ) (rest : List (CmdPollEvent α)), 0 ≤ t →
      updateLoop pi s t ({ elapsed := e, event := some cmd } :: rest) =
        ({ s with control_data :=
            { s.control_data with gimbal_shutter_retract := false } },
         false, [mkAck cmd]) := by
  have hne : cppIntF cmd.param7 ≠ VEHICLE_MOUNT_MODE_RETRACT ∧
      cppIntF cmd.param7 ≠ VEHICLE_MOUNT_MODE_NEUTRAL ∧
      cppIntF cmd.param7 ≠ VEHICLE_MOUNT_MODE_MAVLINK_TARGETING ∧
      cppIntF cmd.param7 ≠ VEHICLE_MOUNT_MODE_GPS_POINT := by
    rcases hmode with h | h
    · rw [h]
      refine ⟨by decide, by decide, by decide, by decide⟩
    · exact h
  have hstep : processCommand pi s cmd =
      { state := { s with control_data :=
          { s.control_data with gimbal_shutter_retract := false } },
        changed := false, acks := [mkAck cmd], exit_loop := true } := by
    rcases hcomp with hc | hc <;>
      simp [processCommand, hsys, hc, hcmd, hne.1, hne.2.1, hne.2.2.1, hne.2.2.2]
  refine ⟨hstep, ?_⟩
  intro t e rest ht
  rw [updateLoop, if_neg (by omega)]
  simp [hstep]

/-- C7 witness for the amended claim: the concrete `RC_TARGETING` command
is acknowledged and exits the loop with no record. -/
theorem claim_C7_witness :
    (testCmdC7.target_system = testCmdState.mav_sys_id ∧
     (testCmdC7.target_component = testCmdState.mav_comp_id ∨
       testCmdC7.target_component = 0) ∧
     testCmdC7.command = VEHICLE_CMD_DO_MOUNT_CONTROL ∧
     (cppIntF testCmdC7.param7 = VEHICLE_MOUNT_MODE_RC_TARGETING ∨
      (cppIntF testCmdC7.param7 ≠ VEHICLE_MOUNT_MODE_RETRACT ∧
       cppIntF testCmdC7.param7 ≠ VEHICLE_MOUNT_MODE_NEUTRAL ∧
       cppIntF testCmdC7.param7 ≠ VEHICLE_MOUNT_MODE_MAVLINK_TARGETING ∧
       cppIntF testCmdC7.param7 ≠ VEHICLE_MOUNT_MODE_GPS_POINT))) ∧
    (processCommand (3 : ℚ) testCmdState testCmdC7 =
      { state := { testCmdState with control_data :=
          { testCmdState.control_data with gimbal_shutter_retract := false } },
        changed := false, acks := [mkAck testCmdC7], exit_loop := true } ∧
    ∀ (t e : ℤ) (rest : List (CmdPollEvent ℚ)), 0 ≤ t →
      updateLoop 3 testCmdState t
          ({ elapsed := e, event := some testCmdC7 } :: rest) =
        ({ testCmdState with control_data :=
            { testCmdState.control_data with gimbal_shutter_retract := false } },
         false, [mkAck testCmdC7])) :=
  ⟨⟨by decide, by decide, by decide, by decide⟩,
   claim_C7_unsupported_submode_acked_and_exits 3 testCmdState testCmdC7
     (by decide) (by decide) (by decide) (by decide)⟩

/-! Per-field lemmas about the three stages of the attitude-set handler. -/

theorem attLockStage_frame0 {α : Type} [LinearOrderedField α]
    (cd : ControlData α) (flags : ℕ) :
    (attLockStage cd flags).frame0 =
      (if flags &&& GIMBAL_MANAGER_FLAGS_ROLL_LOCK ≠ 0 then
        Frame.AngleAbsoluteFrame else cd.frame0) := by
  simp only [attLockStage]
  split_ifs <;> simp_all

theorem attLockStage_frame1 {α : Type} [LinearOrderedField α]
    (cd : ControlData α) (flags : ℕ) :
    (attLockStage cd flags).frame1 =
      (if flags &&& GIMBAL_MANAGER_FLAGS_PITCH_LOCK ≠ 0 then
        Frame.AngleAbsoluteFrame else cd.frame1) := by
  simp only [attLockStage]
  split_ifs <;> simp_all

theorem attLockStage_frame2 {α : Type} [LinearOrderedField α]
    (cd : ControlData α) (flags : ℕ) :
    (attLockStage cd flags).frame2 =
      (if flags &&& GIMBAL_MANAGER_FLAGS_YAW_LOCK ≠ 0 then
        Frame.AngleAbsoluteFrame else cd.frame2) := by
  simp only [attLockStage]
  split_ifs <;> simp_all

theorem attLockStage_angle0 {α : Type} [LinearOrderedField α]
    (cd : ControlData α) (flags : ℕ) :
    (attLockStage cd flags).angle0 = cd.angle0 := by
  simp only [attLockStage]
  split_ifs <;> simp_all

theorem attLockStage_angle1 {α : Type} [LinearOrderedField α]
    (cd : ControlData α) (flags : ℕ) :
    (attLockStage cd flags).angle1 = cd.angle1 := by
  simp only [attLockStage]
  split_ifs <;> simp_all

theorem attLockStage_angle2 {α : Type} [LinearOrderedField α]
    (cd : ControlData α) (flags : ℕ) :
    (attLockStage cd flags).angle2 = cd.angle2 := by
  simp only [attLockStage]
  split_ifs <;> simp_all

theorem attLockStage_type {α : Type} [LinearOrderedField α]
    (cd : ControlData α) (flags : ℕ) :
    (attLockStage cd flags).type = cd.type := by
  simp only [attLockStage]
  split_ifs <;> simp_all

theorem attRateStage_frame0 {α : Type} [LinearOrderedField α]
    (cd : ControlData α) (pr yr rr : Fl α) :
    (attRateStage cd pr yr rr).frame0 =
      (match rr with
       | some _ => Frame.AngularRate
       | none => cd.frame0) := by
  rcases rr with _ | r <;> rcases pr with _ | p <;> rcases yr with _ | y <;>
    simp [attRateStage]

theorem attRateStage_frame1 {α : Type} [LinearOrderedField α]
    (cd : ControlData α) (pr yr rr : Fl α) :
    (attRateStage cd pr yr rr).frame1 =
      (match pr with
       | some _ => Frame.AngularRate
       | none => cd.frame1) := by
  rcases rr with _ | r <;> rcases pr with _ | p <;> rcases yr with _ | y <;>
    simp [attRateStage]

theorem attRateStage_frame2 {α : Type} [LinearOrderedField α]
    (cd : ControlData α) (pr yr rr : Fl α) :
    (attRateStage cd pr yr rr).frame2 =
      (match yr with
       | some _ => Frame.AngularRate
       | none => cd.frame2) := by
  rcases rr with _ | r <;> rcases pr with _ | p <;> rcases yr with _ | y <;>
    simp [attRateStage]

theorem attRateStage_angle0 {α : Type} [LinearOrderedField α]
    (cd : ControlData α) (pr yr rr : Fl α) :
    (attRateStage cd pr yr rr).angle0 =
      (match rr with
       | some r => some r
       | none => cd.angle0) := by
  rcases rr with _ | r <;> rcases pr with _ | p <;> rcases yr with _ | y <;>
    simp [attRateStage]

theorem attRateStage_angle1 {α : Type} [LinearOrderedField α]
    (cd : ControlData α) (pr yr rr : Fl α) :
    (attRateStage cd pr yr rr).angle1 =
      (match pr with
       | some r => some r
       | none => cd.angle1) := by
  rcases rr with _ | r <;> rcases pr with _ | p <;> rcases yr with _ | y <;>
    simp [attRateStage]

theorem attRateStage_angle2 {α : Type} [LinearOrderedField α]
    (cd : ControlData α) (pr yr rr : Fl α) :
    (attRateStage cd pr yr rr).angle2 =
      (match yr with
       | some r => some r
       | none => cd.angle2) := by
  rcases rr with _ | r <;> rcases pr with _ | p <;> rcases yr with _ | y <;>
    simp [attRateStage]

theorem attRateStage_type {α : Type} [LinearOrderedField α]
    (cd : ControlData α) (pr yr rr : Fl α) :
    (attRateStage cd pr yr rr).type = cd.type := by
  rcases rr with _ | r <;> rcases pr with _ | p <;> rcases yr with _ | y <;>
    simp [attRateStage]

theorem attAngleStage_angle0 {α : Type} [LinearOrderedField α]
    (is_roi_set : Bool) (cd : ControlData α) (flags : ℕ) (p y r : Fl α) :
    (attAngleStage is_roi_set cd flags p y r).angle0 =
      (if is_roi_set ∧ flags &&& GIMBAL_MANAGER_FLAGS_OVERRIDE ≠ 0 then p
       else if is_roi_set ∧ flags &&& GIMBAL_MANAGER_FLAGS_NUDGE ≠ 0 then
         fadd cd.angle0 p
       else p) := by
  simp only [attAngleStage]
  split_ifs <;> simp_all

theorem attAngleStage_angle1 {α : Type} [LinearOrderedField α]
    (is_roi_set : Bool) (cd : ControlData α) (flags : ℕ) (p y r : Fl α) :
    (attAngleStage is_roi_set cd flags p y r).angle1 =
      (if is_roi_set ∧ flags &&& GIMBAL_MANAGER_FLAGS_OVERRIDE ≠ 0 then r
       else if is_roi_set ∧ flags &&& GIMBAL_MANAGER_FLAGS_NUDGE ≠ 0 then
         fadd cd.angle1 r
       else r) := by
  simp only [attAngleStage]
  split_ifs <;> simp_all

theorem attAngleStage_angle2 {α : Type} [LinearOrderedField α]
    (is_roi_set : Bool) (cd : ControlData α) (flags : ℕ) (p y r : Fl α) :
    (attAngleStage is_roi_set cd flags p y r).angle2 =
      (if is_roi_set ∧ flags &&& GIMBAL_MANAGER_FLAGS_OVERRIDE ≠ 0 then y
       else if is_roi_set ∧ flags &&& GIMBAL_MANAGER_FLAGS_NUDGE ≠ 0 then
         fadd cd.angle2 y
       else y) := by
  simp only [attAngleStage]
  split_ifs <;> simp_all

theorem attAngleStage_frame0 {α : Type} [LinearOrderedField α]
    (is_roi_set : Bool) (cd : ControlData α) (flags : ℕ) (p y r : Fl α) :
    (attAngleStage is_roi_set cd flags p y r).frame0 = Frame.AngleBodyFrame := by
  simp only [attAngleStage]
  split_ifs <;> simp_all

theorem attAngleStage_frame1 {α : Type} [LinearOrderedField α]
    (is_roi_set : Bool) (cd : ControlData α) (flags : ℕ) (p y r : Fl α) :
    (attAngleStage is_roi_set cd flags p y r).frame1 = Frame.AngleBodyFrame := by
  simp only [attAngleStage]
  split_ifs <;> simp_all

theorem attAngleStage_frame2 {α : Type} [LinearOrderedField α]
    (is_roi_set : Bool) (cd : ControlData α) (flags : ℕ) (p y r : Fl α) :
    (attAngleStage is_roi_set cd flags p y r).frame2 = Frame.AngleBodyFrame := by
  simp only [attAngleStage]
  split_ifs <;> simp_all

theorem attAngleStage_type {α : Type} [LinearOrderedField α]
    (is_roi_set : Bool) (cd : ControlData α) (flags : ℕ) (p y r : Fl α) :
    (attAngleStage is_roi_set cd flags p y r).type = CDType.Angle := by
  simp only [attAngleStage]
  split_ifs <;> simp_all

/-- Helper: under flags with none of Retract/Neutral/None set, the handler
is exactly the three stages composed. -/
theorem set_cd_stages {α : Type} [LinearOrderedField α]
    (is_roi_set : Bool) (cd : ControlData α) (flags : ℕ)
    (pitch_angle pitch_rate yaw_angle yaw_rate roll_angle roll_rate : Fl α)
    (hr : flags &&& GIMBAL_MANAGER_FLAGS_RETRACT = 0)
    (hne : flags &&& GIMBAL_MANAGER_FLAGS_NEUTRAL = 0)
    (hno : flags &&& GIMBAL_MANAGER_FLAGS_NONE = 0) :
    set_control_data_from_set_attitude is_roi_set cd flags pitch_angle
        pitch_rate yaw_angle yaw_rate roll_angle roll_rate =
      attLockStage
        (attRateStage
          (attAngleStage is_roi_set cd flags pitch_angle yaw_angle roll_angle)
          pitch_rate yaw_rate roll_rate)
        flags := by
  simp [set_control_data_from_set_attitude, hr, hne, hno]

/-- Helper: one `Nudge` attitude-set application (target set, none of the
Retract/Neutral/None/Override flags, no finite rates) adds the incoming
angles to the existing per-axis values and keeps the record in `Angle`
mode. -/
theorem set_cd_nudge_step {α : Type} [LinearOrderedField α]
    (cd : ControlData α) (f : ℕ) (p r y : α)
    (hn : f &&& GIMBAL_MANAGER_FLAGS_NUDGE ≠ 0)
    (hr : f &&& GIMBAL_MANAGER_FLAGS_RETRACT = 0)
    (hne : f &&& GIMBAL_MANAGER_FLAGS_NEUTRAL = 0)
    (hno : f &&& GIMBAL_MANAGER_FLAGS_NONE = 0)
    (hov : f &&& GIMBAL_MANAGER_FLAGS_OVERRIDE = 0) :
    (set_control_data_from_set_attitude true cd f (some p) none (some y) none
        (some r) none).angle0 = fadd cd.angle0 (some p) ∧
    (set_control_data_from_set_attitude true cd f (some p) none (some y) none
        (some r) none).angle1 = fadd cd.angle1 (some r) ∧
    (set_control_data_from_set_attitude true cd f (some p) none (some y) none
        (some r) none).angle2 = fadd cd.angle2 (some y) ∧
    (set_control_data_from_set_attitude true cd f (some p) none (some y) none
        (some r) none).type = CDType.Angle := by
  rw [set_cd_stages true cd f (some p) none (some y) none (some r) none hr hne hno]
  rw [attLockStage_angle0, attLockStage_angle1, attLockStage_angle2,
    attLockStage_type, attRateStage_angle0, attRateStage_angle1,
    attRateStage_angle2, attRateStage_type, attAngleStage_angle0,
    attAngleStage_angle1, attAngleStage_angle2, attAngleStage_type]
  simp [hov, hn]

/-- C4: with the target set and the record in `Angle` mode, two consecutive
`Nudge` attitude-set events (no Retract/Neutral/None/Override flags, no
finite rates) with per-axis angle deltas (p1, r1, y1) then (p2, r2, y2)
leave each angle value increased by the sum of its two deltas. -/
theorem claim_C4_nudge_accumulation {α : Type} [LinearOrderedField α]
    (cd : ControlData α) (f1 f2 : ℕ) (v0 v1 v2 p1 r1 y1 p2 r2 y2 : α)
    (htype : cd.type = CDType.Angle)
    (ha0 : cd.angle0 = some v0) (ha1 : cd.angle1 = some v1)
    (ha2 : cd.angle2 = some v2)
    (h1n : f1 &&& GIMBAL_MANAGER_FLAGS_NUDGE ≠ 0)
    (h1r : f1 &&& GIMBAL_MANAGER_FLAGS_RETRACT = 0)
    (h1ne : f1 &&& GIMBAL_MANAGER_FLAGS_NEUTRAL = 0)
    (h1no : f1 &&& GIMBAL_MANAGER_FLAGS_NONE = 0)
    (h1ov : f1 &&& GIMBAL_MANAGER_FLAGS_OVERRIDE = 0)
    (h2n : f2 &&& GIMBAL_MANAGER_FLAGS_NUDGE ≠ 0)
    (h2r : f2 &&& GIMBAL_MANAGER_FLAGS_RETRACT = 0)
    (h2ne : f2 &&& GIMBAL_MANAGER_FLAGS_NEUTRAL = 0)
    (h2no : f2 &&& GIMBAL_MANAGER_FLAGS_NONE = 0)
    (h2ov : f2 &&& GIMBAL_MANAGER_FLAGS_OVERRIDE = 0) :
    (set_control_data_from_set_attitude true
        (set_control_data_from_set_attitude true cd f1 (some p1) none
          (some y1) none (some r1) none)
        f2 (some p2) none (some y2) none (some r2) none).angle0 =
      some (v0 + (p1 + p2)) ∧
    (set_control_data_from_set_attitude true
        (set_control_data_from_set_attitude true cd f1 (some p1) none
          (some y1) none (some r1) none)
        f2 (some p2) none (some y2) none (some r2) none).angle1 =
      some (v1 + (r1 + r2)) ∧
    (set_control_data_from_set_attitude true
        (set_control_data_from_set_attitude true cd f1 (some p1) none
          (some y1) none (some r1) none)
        f2 (some p2) none (some y2) none (some r2) none).angle2 =
      some (v2 + (y1 + y2)) := by
  obtain ⟨e10, e11, e12, _⟩ := set_cd_nudge_step cd f1 p1 r1 y1 h1n h1r h1ne h1no h1ov
  obtain ⟨e20, e21, e22, _⟩ := set_cd_nudge_step
    (set_control_data_from_set_attitude true cd f1 (some p1) none (some y1)
      none (some r1) none) f2 p2 r2 y2 h2n h2r h2ne h2no h2ov
  rw [e20, e21, e22, e10, e11, e12, ha0, ha1, ha2]
  refine ⟨?_, ?_, ?_⟩ <;> simp [fadd] <;> ring

/-- C4 witness: starting angles (1, 2, 3), nudges (1, 2, 3) then
(10, 20, 30) accumulate to (1+11, 2+22, 3+33). -/
theorem claim_C4_witness :
    (testCdAngle.type = CDType.Angle ∧
     testCdAngle.angle0 = some 1 ∧ testCdAngle.angle1 = some 2 ∧
     testCdAngle.angle2 = some 3 ∧
     GIMBAL_MANAGER_FLAGS_NUDGE &&& GIMBAL_MANAGER_FLAGS_NUDGE ≠ 0 ∧
     GIMBAL_MANAGER_FLAGS_NUDGE &&& GIMBAL_MANAGER_FLAGS_RETRACT = 0 ∧
     GIMBAL_MANAGER_FLAGS_NUDGE &&& GIMBAL_MANAGER_FLAGS_NEUTRAL = 0 ∧
     GIMBAL_MANAGER_FLAGS_NUDGE &&& GIMBAL_MANAGER_FLAGS_NONE = 0 ∧
     GIMBAL_MANAGER_FLAGS_NUDGE &&& GIMBAL_MANAGER_FLAGS_OVERRIDE = 0) ∧
    ((set_control_data_from_set_attitude true
        (set_control_data_from_set_attitude true testCdAngle
          GIMBAL_MANAGER_FLAGS_NUDGE (some 1) none (some 3) none (some 2) none)
        GIMBAL_MANAGER_FLAGS_NUDGE (some 10) none (some 30) none (some 20)
        none).angle0 = some ((1 : ℚ) + (1 + 10)) ∧
     (set_control_data_from_set_attitude true
        (set_control_data_from_set_attitude true testCdAngle
          GIMBAL_MANAGER_FLAGS_NUDGE (some 1) none (some 3) none (some 2) none)
        GIMBAL_MANAGER_FLAGS_NUDGE (some 10) none (some 30) none (some 20)
        none).angle1 = some ((2 : ℚ) + (2 + 20)) ∧
     (set_control_data_from_set_attitude true
        (set_control_data_from_set_attitude true testCdAngle
          GIMBAL_MANAGER_FLAGS_NUDGE (some 1) none (some 3) none (some 2) none)
        GIMBAL_MANAGER_FLAGS_NUDGE (some 10) none (some 30) none (some 20)
        none).angle2 = some ((3 : ℚ) + (3 + 30))) :=
  ⟨⟨by decide, by decide, by decide, by decide, by decide, by decide,
    by decide, by decide, by decide⟩,
   claim_C4_nudge_accumulation testCdAngle GIMBAL_MANAGER_FLAGS_NUDGE
     GIMBAL_MANAGER_FLAGS_NUDGE 1 2 3 1 2 3 10 20 30 (by decide) (by decide)
     (by decide) (by decide) (by decide) (by decide) (by decide) (by decide)
     (by decide) (by decide) (by decide) (by decide) (by decide) (by decide)⟩

/-- C5: in the non-Retract/Neutral/None attitude-set path, per axis: a
finite rate switches the axis frame to angular-rate and replaces its value
with the rate; a per-axis lock flag forces the frame to absolute-angle
while the previously assigned value (the rate when finite, otherwise the
angle assigned by the nudge/override/replace stage) is retained. -/
theorem claim_C5_rate_and_lock_precedence {α : Type} [LinearOrderedField α]
    (is_roi_set : Bool) (cd : ControlData α) (flags : ℕ)
    (pitch_angle pitch_rate yaw_angle yaw_rate roll_angle roll_rate : Fl α)
    (hr : flags &&& GIMBAL_MANAGER_FLAGS_RETRACT = 0)
    (hne : flags &&& GIMBAL_MANAGER_FLAGS_NEUTRAL = 0)
    (hno : flags &&& GIMBAL_MANAGER_FLAGS_NONE = 0) :
    (set_control_data_from_set_attitude is_roi_set cd flags pitch_angle
        pitch_rate yaw_angle yaw_rate roll_angle roll_rate).frame0 =
      (if flags &&& GIMBAL_MANAGER_FLAGS_ROLL_LOCK ≠ 0 then
        Frame.AngleAbsoluteFrame
       else match roll_rate with
         | some _ => Frame.AngularRate
         | none => Frame.AngleBodyFrame) ∧
    (set_control_data_from_set_attitude is_roi_set cd flags pitch_angle
        pitch_rate yaw_angle yaw_rate roll_angle roll_rate).angle0 =
      (match roll_rate with
       | some r => some r
       | none =>
         if is_roi_set ∧ flags &&& GIMBAL_MANAGER_FLAGS_OVERRIDE ≠ 0 then
           pitch_angle
         else if is_roi_set ∧ flags &&& GIMBAL_MANAGER_FLAGS_NUDGE ≠ 0 then
           fadd cd.angle0 pitch_angle
         else pitch_angle) ∧
    (set_control_data_from_set_attitude is_roi_set cd flags pitch_angle
        pitch_rate yaw_angle yaw_rate roll_angle roll_rate).frame1 =
      (if flags &&& GIMBAL_MANAGER_FLAGS_PITCH_LOCK ≠ 0 then
        Frame.AngleAbsoluteFrame
       else match pitch_rate with
         | some _ => Frame.AngularRate
         | none => Frame.AngleBodyFrame) ∧
    (set_control_data_from_set_attitude is_roi_set cd flags pitch_angle
        pitch_rate yaw_angle yaw_rate roll_angle roll_rate).angle1 =
      (match pitch_rate with
       | some r => some r
       | none =>
         if is_roi_set ∧ flags &&& GIMBAL_MANAGER_FLAGS_OVERRIDE ≠ 0 then
           roll_angle
         else if is_roi_set ∧ flags &&& GIMBAL_MANAGER_FLAGS_NUDGE ≠ 0 then
           fadd cd.angle1 roll_angle
         else roll_angle) ∧
    (set_control_data_from_set_attitude is_roi_set cd flags pitch_angle
        pitch_rate yaw_angle yaw_rate roll_angle roll_rate).frame2 =
      (if flags &&& GIMBAL_MANAGER_FLAGS_YAW_LOCK ≠ 0 then
        Frame.AngleAbsoluteFrame
       else match yaw_rate with
         | some _ => Frame.AngularRate
         | none => Frame.AngleBodyFrame) ∧
    (set_control_data_from_set_attitude is_roi_set cd flags pitch_angle
        pitch_rate yaw_angle yaw_rate roll_angle roll_rate).angle2 =
      (match yaw_rate with
       | some r => some r
       | none =>
         if is_roi_set ∧ flags &&& GIMBAL_MANAGER_FLAGS_OVERRIDE ≠ 0 then
           yaw_angle
         else if is_roi_set ∧ flags &&& GIMBAL_MANAGER_FLAGS_NUDGE ≠ 0 then
           fadd cd.angle2 yaw_angle
         else yaw_angle) := by
  rw [set_cd_stages is_roi_set cd flags pitch_angle pitch_rate yaw_angle
    yaw_rate roll_angle roll_rate hr hne hno]
  rw [attLockStage_frame0, attLockStage_frame1, attLockStage_frame2,
    attLockStage_angle0, attLockStage_angle1, attLockStage_angle2,
    attRateStage_frame0, attRateStage_frame1, attRateStage_frame2,
    attRateStage_angle0, attRateStage_angle1, attRateStage_angle2,
    attAngleStage_frame0, attAngleStage_frame1, attAngleStage_frame2,
    attAngleStage_angle0, attAngleStage_angle1, attAngleStage_angle2]
  refine ⟨rfl, ?_, rfl, ?_, rfl, ?_⟩ <;>
    cases roll_rate <;> cases pitch_rate <;> cases yaw_rate <;> rfl

/-- C5 witness: flags = ROLL_LOCK, finite roll rate 7 and yaw rate 9, no
pitch rate: roll frame absolute (lock wins) with value the rate, pitch
keeps the replaced angle with body frame, yaw switches to angular-rate. -/
theorem claim_C5_witness :
    (GIMBAL_MANAGER_FLAGS_ROLL_LOCK &&& GIMBAL_MANAGER_FLAGS_RETRACT = 0 ∧
     GIMBAL_MANAGER_FLAGS_ROLL_LOCK &&& GIMBAL_MANAGER_FLAGS_NEUTRAL = 0 ∧
     GIMBAL_MANAGER_FLAGS_ROLL_LOCK &&& GIMBAL_MANAGER_FLAGS_NONE = 0) ∧
    ((set_control_data_from_set_attitude true testCdAngle
        GIMBAL_MANAGER_FLAGS_ROLL_LOCK (some 4) none (some 6) (some 9)
        (some 5) (some 7)).frame0 =
      (if GIMBAL_MANAGER_FLAGS_ROLL_LOCK &&& GIMBAL_MANAGER_FLAGS_ROLL_LOCK ≠ 0 then
        Frame.AngleAbsoluteFrame
       else match (some (7 : ℚ) : Fl ℚ) with
         | some _ => Frame.AngularRate
         | none => Frame.AngleBodyFrame) ∧
     (set_control_data_from_set_attitude true testCdAngle
        GIMBAL_MANAGER_FLAGS_ROLL_LOCK (some 4) none (some 6) (some 9)
        (some 5) (some 7)).angle0 =
      (match (some (7 : ℚ) : Fl ℚ) with
       | some r => some r
       | none =>
         if true ∧ GIMBAL_MANAGER_FLAGS_ROLL_LOCK &&& GIMBAL_MANAGER_FLAGS_OVERRIDE ≠ 0 then
           (some 4 : Fl ℚ)
         else if true ∧ GIMBAL_MANAGER_FLAGS_ROLL_LOCK &&& GIMBAL_MANAGER_FLAGS_NUDGE ≠ 0 then
           fadd testCdAngle.angle0 (some 4)
         else (some 4 : Fl ℚ)) ∧
     (set_control_data_from_set_attitude true testCdAngle
        GIMBAL_MANAGER_FLAGS_ROLL_LOCK (some 4) none (some 6) (some 9)
        (some 5) (some 7)).frame1 =
      (if GIMBAL_MANAGER_FLAGS_ROLL_LOCK &&& GIMBAL_MANAGER_FLAGS_PITCH_LOCK ≠ 0 then
        Frame.AngleAbsoluteFrame
       else match (none : Fl ℚ) with
         | some _ => Frame.AngularRate
         | none => Frame.AngleBodyFrame) ∧
     (set_control_data_from_set_attitude true testCdAngle
        GIMBAL_MANAGER_FLAGS_ROLL_LOCK (some 4) none (some 6) (some 9)
        (some 5) (some 7)).angle1 =
      (match (none : Fl ℚ) with
       | some r => some r
       | none =>
         if true ∧ GIMBAL_MANAGER_FLAGS_ROLL_LOCK &&& GIMBAL_MANAGER_FLAGS_OVERRIDE ≠ 0 then
           (some 5 : Fl ℚ)
         else if true ∧ GIMBAL_MANAGER_FLAGS_ROLL_LOCK &&& GIMBAL_MANAGER_FLAGS_NUDGE ≠ 0 then
           fadd testCdAngle.angle1 (some 5)
         else (some 5 : Fl ℚ)) ∧
     (set_control_data_from_set_attitude true testCdAngle
        GIMBAL_MANAGER_FLAGS_ROLL_LOCK (some 4) none (some 6) (some 9)
        (some 5) (some 7)).frame2 =
      (if GIMBAL_MANAGER_FLAGS_ROLL_LOCK &&& GIMBAL_MANAGER_FLAGS_YAW_LOCK ≠ 0 then
        Frame.AngleAbsoluteFrame
       else match (some (9 : ℚ) : Fl ℚ) with
         | some _ => Frame.AngularRate
         | none => Frame.AngleBodyFrame) ∧
     (set_control_data_from_set_attitude true testCdAngle
        GIMBAL_MANAGER_FLAGS_ROLL_LOCK (some 4) none (some 6) (some 9)
        (some 5) (some 7)).angle2 =
      (match (some (9 : ℚ) : Fl ℚ) with
       | some r => some r
       | none =>
         if true ∧ GIMBAL_MANAGER_FLAGS_ROLL_LOCK &&& GIMBAL_MANAGER_FLAGS_OVERRIDE ≠ 0 then
           (some 6 : Fl ℚ)
         else if true ∧ GIMBAL_MANAGER_FLAGS_ROLL_LOCK &&& GIMBAL_MANAGER_FLAGS_NUDGE ≠ 0 then
           fadd testCdAngle.angle2 (some 6)
         else (some 6 : Fl ℚ))) :=
  ⟨⟨by decide, by decide, by decide⟩,
   claim_C5_rate_and_lock_precedence true testCdAngle
     GIMBAL_MANAGER_FLAGS_ROLL_LOCK (some 4) none (some 6) (some 9) (some 5)
     (some 7) (by decide) (by decide) (by decide)⟩

/-- C10: an accepted `DO_GIMBAL_MANAGER_ATTITUDE` invokes the attitude
handler with param3 as BOTH the pitch-angle and yaw-angle arguments and the
roll arguments at their defaults; hence in the plain replacement path (no
nudge, no finite pitch/yaw rates) the pitch-slot and yaw-slot angle values
of the resulting record coincide (both equal param3). -/
theorem claim_C10_param3_pitch_yaw_wiring {α : Type} [LinearOrderedField α]
    [FloorRing α] (s : V2State α) (c : VehicleCommand α)
    (hsys : c.target_system = s.mav_sys_id ∨ c.target_system = 0)
    (hcomp : c.target_component = s.mav_comp_id ∨ c.target_component = 0)
    (hcmd : c.command = VEHICLE_CMD_DO_GIMBAL_MANAGER_ATTITUDE) :
    v2_process_cmd s c =
      ({ s with control_data :=
          (set_control_data_from_set_attitude s.is_roi_set s.control_data
            (cppUIntF c.param5) c.param3 c.param1 c.param3 c.param2 (some 0)
            none) },
       true, [mkAck c], true) ∧
    ((cppUIntF c.param5) &&& GIMBAL_MANAGER_FLAGS_RETRACT = 0 →
     (cppUIntF c.param5) &&& GIMBAL_MANAGER_FLAGS_NEUTRAL = 0 →
     (cppUIntF c.param5) &&& GIMBAL_MANAGER_FLAGS_NONE = 0 →
     (cppUIntF c.param5) &&& GIMBAL_MANAGER_FLAGS_NUDGE = 0 →
     c.param1 = none → c.param2 = none →
     (v2_process_cmd s c).1.control_data.angle0 = c.param3 ∧
     (v2_process_cmd s c).1.control_data.angle2 = c.param3 ∧
     (v2_process_cmd s c).1.control_data.angle0 =
       (v2_process_cmd s c).1.control_data.angle2) := by
  have hmain : v2_process_cmd s c =
      ({ s with control_data :=
          (set_control_data_from_set_attitude s.is_roi_set s.control_data
            (cppUIntF c.param5) c.param3 c.param1 c.param3 c.param2 (some 0)
            none) },
       true, [mkAck c], true) := by
    rcases hsys with h1 | h1 <;> rcases hcomp with h2 | h2 <;>
      simp [v2_process_cmd, hcmd, h1, h2]
  refine ⟨hmain, ?_⟩
  intro hfr hfne hfno hfn h1 h2
  rw [hmain]
  simp only [h1, h2]
  rw [set_cd_stages s.is_roi_set s.control_data (cppUIntF c.param5) c.param3
    none c.param3 none (some 0) none hfr hfne hfno]
  rw [attLockStage_angle0, attLockStage_angle2, attRateStage_angle0,
    attRateStage_angle2, attAngleStage_angle0, attAngleStage_angle2]
  simp only [hfn, ne_eq, not_true_eq_false, and_false, if_false]
  split_ifs <;> simp

/-- C10 witness: param3 = 5, zero flags, NaN rates: the record's pitch-slot
and yaw-slot values both end up `some 5`. -/
theorem claim_C10_witness :
    ((testCmdC10.target_system = testV2State.mav_sys_id ∨
      testCmdC10.target_system = 0) ∧
     (testCmdC10.target_component = testV2State.mav_comp_id ∨
      testCmdC10.target_component = 0) ∧
     testCmdC10.command = VEHICLE_CMD_DO_GIMBAL_MANAGER_ATTITUDE) ∧
    (v2_process_cmd testV2State testCmdC10 =
      ({ testV2State with control_data :=
          (set_control_data_from_set_attitude testV2State.is_roi_set
            testV2State.control_data (cppUIntF testCmdC10.param5)
            testCmdC10.param3 testCmdC10.param1 testCmdC10.param3
            testCmdC10.param2 (some 0) none) },
       true, [mkAck testCmdC10], true) ∧
    ((cppUIntF testCmdC10.param5) &&& GIMBAL_MANAGER_FLAGS_RETRACT = 0 →
     (cppUIntF testCmdC10.param5) &&& GIMBAL_MANAGER_FLAGS_NEUTRAL = 0 →
     (cppUIntF testCmdC10.param5) &&& GIMBAL_MANAGER_FLAGS_NONE = 0 →
     (cppUIntF testCmdC10.param5) &&& GIMBAL_MANAGER_FLAGS_NUDGE = 0 →
     testCmdC10.param1 = none → testCmdC10.param2 = none →
     (v2_process_cmd testV2State testCmdC10).1.control_data.angle0 =
       testCmdC10.param3 ∧
     (v2_process_cmd testV2State testCmdC10).1.control_data.angle2 =
       testCmdC10.param3 ∧
     (v2_process_cmd testV2State testCmdC10).1.control_data.angle0 =
       (v2_process_cmd testV2State testCmdC10).1.control_data.angle2)) :=
  ⟨⟨by decide, by decide, by decide⟩,
   claim_C10_param3_pitch_yaw_wiring testV2State testCmdC10 (by decide)
     (by decide) (by decide)⟩

/-- C6: in the lon/lat-to-angle conversion, (a) a stored fixed pitch that
compares >= -pi is used verbatim (with the additive pitch offset applied
after it) and the projection reference is untouched; (b) otherwise the
pitch channel is atan2(target_alt - carrier_alt, planar distance) computed
by `_calculate_pitch`, which (c) projects target and carrier with the
reference anchored at the carrier position current when the reference was
first established; (d) an already-established reference is reused, never
re-anchored. -/
theorem claim_C6_fixed_pitch_and_anchoring {α : Type} [LinearOrderedField α]
    (g : GeoPrims α) (pi : α) (cd : ControlData α) (ref : Option (α × α))
    (roi_lon roi_lat roi_alt : α) (gpos : GlobalPos α) :
    (∀ v : α, cd.lonlat_pitch_fixed_angle = some v → -pi ≤ v →
      (transform_lon_lat_to_angle g pi cd ref roi_lon roi_lat roi_alt
          gpos).1.angle1 = fadd (some v) cd.lonlat_pitch_angle_offset ∧
      (transform_lon_lat_to_angle g pi cd ref roi_lon roi_lat roi_alt
          gpos).2 = ref) ∧
    (fgeb cd.lonlat_pitch_fixed_angle (-pi) = false →
      (transform_lon_lat_to_angle g pi cd ref roi_lon roi_lat roi_alt
          gpos).1.angle1 =
        fadd
          (some ((calculate_pitch g ref roi_lon roi_lat roi_alt gpos).1))
          cd.lonlat_pitch_angle_offset ∧
      (transform_lon_lat_to_angle g pi cd ref roi_lon roi_lat roi_alt
          gpos).2 =
        some ((calculate_pitch g ref roi_lon roi_lat roi_alt gpos).2)) ∧
    (calculate_pitch g ref roi_lon roi_lat roi_alt gpos =
      (g.atan2 (roi_alt - gpos.alt)
        (g.sqrt
          (((g.proj (ref.getD (gpos.lat, gpos.lon)) roi_lat roi_lon).1 -
              (g.proj (ref.getD (gpos.lat, gpos.lon)) gpos.lat gpos.lon).1) *
            ((g.proj (ref.getD (gpos.lat, gpos.lon)) roi_lat roi_lon).1 -
              (g.proj (ref.getD (gpos.lat, gpos.lon)) gpos.lat gpos.lon).1) +
            ((g.proj (ref.getD (gpos.lat, gpos.lon)) roi_lat roi_lon).2 -
              (g.proj (ref.getD (gpos.lat, gpos.lon)) gpos.lat gpos.lon).2) *
            ((g.proj (ref.getD (gpos.lat, gpos.lon)) roi_lat roi_lon).2 -
              (g.proj (ref.getD (gpos.lat, gpos.lon)) gpos.lat gpos.lon).2))),
       ref.getD (gpos.lat, gpos.lon))) ∧
    (∀ r0 : α × α, ref = some r0 →
      (calculate_pitch g ref roi_lon roi_lat roi_alt gpos).2 = r0 ∧
      ((transform_lon_lat_to_angle g pi cd ref roi_lon roi_lat roi_alt
          gpos).2 = ref ∨
       (transform_lon_lat_to_angle g pi cd ref roi_lon roi_lat roi_alt
          gpos).2 = some r0)) := by
  refine ⟨?_, ?_, ?_, ?_⟩
  · intro v hv hge
    have hb : fgeb (some v : Fl α) (-pi) = true := by
      simp [fgeb, hge]
    constructor <;> simp [transform_lon_lat_to_angle, hv, hb]
  · intro hb
    constructor <;> simp [transform_lon_lat_to_angle, hb]
  · simp [calculate_pitch]
  · intro r0 hr0
    constructor
    · simp [calculate_pitch, hr0]
    · by_cases hb : fgeb cd.lonlat_pitch_fixed_angle (-pi)
      · left
        simp [transform_lon_lat_to_angle, hb]
      · right
        simp only [Bool.not_eq_true] at hb
        simp [transform_lon_lat_to_angle, hb, calculate_pitch, hr0]

/-- C6 witness: a stored fixed pitch of -1 (>= -pi at pi = 3) is used
verbatim before the offset, and the projection reference stays
unestablished. -/
theorem claim_C6_witness :
    (testCdC6.lonlat_pitch_fixed_angle = some (-1) ∧ (-3 : ℚ) ≤ -1) ∧
    ((transform_lon_lat_to_angle testGeo 3 testCdC6 none 1 2 3
        testGpos).1.angle1 =
      fadd (some (-1)) testCdC6.lonlat_pitch_angle_offset ∧
     (transform_lon_lat_to_angle testGeo 3 testCdC6 none 1 2 3
        testGpos).2 = none) :=
  ⟨⟨by decide, by norm_num⟩,
   (claim_C6_fixed_pitch_and_anchoring testGeo 3 testCdC6 none 1 2 3
      testGpos).1 (-1) (by decide) (by norm_num)⟩

/-! Preservation lemmas for `gimbal_shutter_retract` and `is_roi_set`. -/

theorem attAngleStage_retract_flag {α : Type} [LinearOrderedField α]
    (is_roi_set : Bool) (cd : ControlData α) (flags : ℕ) (p y r : Fl α) :
    (attAngleStage is_roi_set cd flags p y r).gimbal_shutter_retract =
      cd.gimbal_shutter_retract := by
  simp only [attAngleStage]
  split_ifs <;> simp_all

theorem attRateStage_retract_flag {α : Type} [LinearOrderedField α]
    (cd : ControlData α) (pr yr rr : Fl α) :
    (attRateStage cd pr yr rr).gimbal_shutter_retract =
      cd.gimbal_shutter_retract := by
  rcases rr with _ | r <;> rcases pr with _ | p <;> rcases yr with _ | y <;>
    simp [attRateStage]

theorem attLockStage_retract_flag {α : Type} [LinearOrderedField α]
    (cd : ControlData α) (flags : ℕ) :
    (attLockStage cd flags).gimbal_shutter_retract =
      cd.gimbal_shutter_retract := by
  simp only [attLockStage]
  split_ifs <;> simp_all

theorem set_cd_retract_flag {α : Type} [LinearOrderedField α]
    (is_roi_set : Bool) (cd : ControlData α) (flags : ℕ)
    (pa pr ya yr ra rr : Fl α) :
    (set_control_data_from_set_attitude is_roi_set cd flags pa pr ya yr ra
        rr).gimbal_shutter_retract = cd.gimbal_shutter_retract := by
  simp only [set_control_data_from_set_attitude]
  split_ifs <;>
    simp [attLockStage_retract_flag, attRateStage_retract_flag,
      attAngleStage_retract_flag]

theorem transform_retract_flag {α : Type} [LinearOrderedField α]
    (g : GeoPrims α) (pi : α) (cd : ControlData α) (ref : Option (α × α))
    (lon lat alt : α) (gpos : GlobalPos α) :
    (transform_lon_lat_to_angle g pi cd ref lon lat alt
        gpos).1.gimbal_shutter_retract = cd.gimbal_shutter_retract := by
  simp [transform_lon_lat_to_angle]

theorem v2_att_retract_flag {α : Type} [LinearOrderedField α]
    (s : V2State α) (m : SetAttMsg α) :
    (v2_process_att s m).control_data.gimbal_shutter_retract =
      s.control_data.gimbal_shutter_retract := by
  simp [v2_process_att, set_cd_retract_flag]

theorem v2_roi_retract_flag {α : Type} [LinearOrderedField α]
    (g : GeoPrims α) (pi : α) (s : V2State α) (r : RoiMsg α)
    (sp : α × α × α) (gpos : GlobalPos α) :
    (v2_process_roi g pi s r sp gpos).1.control_data.gimbal_shutter_retract =
      false := by
  simp only [v2_process_roi]
  split_ifs <;> simp [transform_retract_flag]

theorem v2_sp_retract_flag {α : Type} [LinearOrderedField α]
    (g : GeoPrims α) (pi : α) (s : V2State α) (sp : α × α × α)
    (gpos : GlobalPos α) :
    (v2_process_sp g pi s sp gpos).1.control_data.gimbal_shutter_retract =
      s.control_data.gimbal_shutter_retract := by
  simp only [v2_process_sp]
  split_ifs <;> simp [transform_retract_flag]

theorem v2_cmd_retract_flag {α : Type} [LinearOrderedField α] [FloorRing α]
    (s : V2State α) (c : VehicleCommand α) :
    (v2_process_cmd s c).1.control_data.gimbal_shutter_retract =
      s.control_data.gimbal_shutter_retract := by
  simp only [v2_process_cmd]
  split_ifs <;> simp [set_cd_retract_flag]

/-- Across one gimbal-manager wakeup, the shutter-retract flag is cleared
exactly when an ROI event was observed; every other branch leaves it
unchanged. -/
theorem v2_wake_retract_flag {α : Type} [LinearOrderedField α] [FloorRing α]
    (g : GeoPrims α) (pi : α) (s : V2State α) (w : V2Wake α) :
    (v2_process_wake g pi s w).1.control_data.gimbal_shutter_retract =
      (match w.roi with
       | some _ => false
       | none => s.control_data.gimbal_shutter_retract) := by
  rcases hatt : w.att with _ | m <;> rcases hroi : w.roi with _ | r <;>
    cases hsp : w.sp_updated <;> rcases hcmd : w.cmd with _ | c <;>
    simp [v2_process_wake, hatt, hroi, hsp, hcmd, v2_att_retract_flag,
      v2_roi_retract_flag, v2_sp_retract_flag, v2_cmd_retract_flag]

theorem v2_run_retract_flag_false {α : Type} [LinearOrderedField α]
    [FloorRing α] (g : GeoPrims α) (pi : α) (l : List (V2Wake α)) :
    ∀ s : V2State α, s.control_data.gimbal_shutter_retract = false →
      (v2_run g pi s l).control_data.gimbal_shutter_retract = false := by
  induction l with
  | nil => intro s h; exact h
  | cons w l ih =>
    intro s h
    simp only [v2_run, List.foldl_cons] at ih ⊢
    apply ih
    rw [v2_wake_retract_flag]
    rcases w.roi with _ | r <;> simp [h]

theorem roi_adapter_roi_retract_flag {α : Type} [LinearOrderedField α]
    (s : RoiState α) (r : RoiMsg α) (sp : α × α × α) :
    (roi_process_roi s r sp).1.control_data.gimbal_shutter_retract = false := by
  simp only [roi_process_roi]
  split_ifs <;> simp [control_data_set_lon_lat]

theorem v2_att_is_roi_state {α : Type} [LinearOrderedField α]
    (s : V2State α) (m : SetAttMsg α) :
    (v2_process_att s m).is_roi_set = s.is_roi_set := rfl

theorem v2_roi_is_roi_state {α : Type} [LinearOrderedField α]
    (g : GeoPrims α) (pi : α) (s : V2State α) (r : RoiMsg α)
    (sp : α × α × α) (gpos : GlobalPos α) :
    (v2_process_roi g pi s r sp gpos).1.is_roi_set =
      (if r.mode = ROI_NONE then false
       else if r.mode = ROI_WPNEXT then true
       else if r.mode = ROI_LOCATION then true
       else s.is_roi_set) := by
  simp only [v2_process_roi]
  split_ifs <;> simp_all

theorem v2_sp_is_roi_state {α : Type} [LinearOrderedField α]
    (g : GeoPrims α) (pi : α) (s : V2State α) (sp : α × α × α)
    (gpos : GlobalPos α) :
    (v2_process_sp g pi s sp gpos).1.is_roi_set = s.is_roi_set := by
  simp only [v2_process_sp]
  split_ifs <;> simp

theorem v2_cmd_is_roi_state {α : Type} [LinearOrderedField α] [FloorRing α]
    (s : V2State α) (c : VehicleCommand α) :
    (v2_process_cmd s c).1.is_roi_set = s.is_roi_set := by
  simp only [v2_process_cmd]
  split_ifs <;> simp

/-- Across one gimbal-manager wakeup, `is_roi_set` changes only through an
accepted ROI event. -/
theorem v2_wake_is_roi_state {α : Type} [LinearOrderedField α] [FloorRing α]
    (g : GeoPrims α) (pi : α) (s : V2State α) (w : V2Wake α) :
    (v2_process_wake g pi s w).1.is_roi_set =
      (match w.roi with
       | some r =>
         if r.mode = ROI_NONE then false
         else if r.mode = ROI_WPNEXT then true
         else if r.mode = ROI_LOCATION then true
         else s.is_roi_set
       | none => s.is_roi_set) := by
  rcases hatt : w.att with _ | m <;> rcases hroi : w.roi with _ | r <;>
    cases hsp : w.sp_updated <;> rcases hcmd : w.cmd with _ | c <;>
    simp [v2_process_wake, hatt, hroi, hsp, hcmd, v2_att_is_roi_state,
      v2_roi_is_roi_state, v2_sp_is_roi_state, v2_cmd_is_roi_state]

theorem foldl_roiAccStep_acc {α : Type} (l : List (V2Wake α)) :
    ∀ acc : Option ℕ,
      l.foldl roiAccStep acc =
        (match l.foldl roiAccStep none with
         | some m => some m
         | none => acc) := by
  induction l with
  | nil => intro acc; rfl
  | cons w l ih =>
    intro acc
    simp only [List.foldl_cons]
    rw [ih (roiAccStep acc w), ih (roiAccStep none w)]
    rcases hfold : l.foldl roiAccStep none with _ | m
    · rcases hroi : w.roi with _ | r <;> simp only [roiAccStep, hroi]
      split_ifs <;> rfl
    · rfl

/-- The gimbal-manager target-set flag after any wake sequence equals the
"last accepted ROI mode differs from None" predicate (falling back to the
starting flag when no ROI was accepted). -/
theorem v2_run_is_roi_state {α : Type} [LinearOrderedField α] [FloorRing α]
    (g : GeoPrims α) (pi : α) (l : List (V2Wake α)) :
    ∀ s : V2State α,
      (v2_run g pi s l).is_roi_set =
        (match lastAcceptedRoiMode l with
         | some m => decide (m ≠ ROI_NONE)
         | none => s.is_roi_set) := by
  induction l with
  | nil => intro s; rfl
  | cons w l ih =>
    intro s
    simp only [v2_run, List.foldl_cons] at ih ⊢
    rw [ih ((v2_process_wake g pi s w).1)]
    simp only [lastAcceptedRoiMode, List.foldl_cons]
    rw [foldl_roiAccStep_acc l (roiAccStep none w)]
    rcases hfold : l.foldl roiAccStep none with _ | m
    · rw [v2_wake_is_roi_state]
      rcases hroi : w.roi with _ | r
      · simp [roiAccStep, hroi]
      · simp only [roiAccStep, hroi]
        by_cases hacc : r.mode = ROI_NONE ∨ r.mode = ROI_WPNEXT ∨
          r.mode = ROI_LOCATION
        · rw [if_pos hacc]
          rcases hacc with h | h | h <;>
            simp [h, ROI_NONE, ROI_WPNEXT, ROI_LOCATION]
        · rw [if_neg hacc]
          push_neg at hacc
          simp [hacc.1, hacc.2.1, hacc.2.2]
    · rfl

/-- C8 counterexample: from a gimbal-manager state whose record carries a
raised shutter-retract flag, an attitude-set cycle produces output while
leaving the flag raised: the attitude-set path performs no reset at the
start of the cycle. -/
theorem claim_C8_counterexample :
    (v2_process_wake testGeo 3 testV2Retract testWakeAtt).2.1 = true ∧
    (v2_process_wake testGeo 3 testV2Retract
        testWakeAtt).1.control_data.gimbal_shutter_retract = true := by
  decide

/-- C8 (amended): the flag is true in a produced record only for a legacy
explicit-retract cycle; it is reset to false by ROI-driven cycles (in both
ROI-capable adapters), while attitude-set, setpoint and command cycles of
the gimbal-manager adapter leave it unchanged — harmless there, since from
initialization the gimbal-manager flag is invariantly false. -/
theorem claim_C8_retract_flag_semantics {α : Type} [LinearOrderedField α]
    [FloorRing α] (g : GeoPrims α) (pi : α) :
    (∀ (s : CmdMountState α) (cmd : VehicleCommand α),
      cmd.target_system = s.mav_sys_id →
      (cmd.target_component = s.mav_comp_id ∨ cmd.target_component = 0) →
      (processCommand pi s cmd).state.control_data.gimbal_shutter_retract =
        decide (cmd.command = VEHICLE_CMD_DO_MOUNT_CONTROL ∧
          cppIntF cmd.param7 = VEHICLE_MOUNT_MODE_RETRACT)) ∧
    (∀ (s : V2State α) (w : V2Wake α),
      (v2_process_wake g pi s w).1.control_data.gimbal_shutter_retract =
        (match w.roi with
         | some _ => false
         | none => s.control_data.gimbal_shutter_retract)) ∧
    (∀ (sysid compid : ℕ) (l : List (V2Wake α)),
      (v2_run g pi (v2InitialState α sysid compid)
          l).control_data.gimbal_shutter_retract = false) ∧
    (∀ (s : RoiState α) (roi : Option (RoiMsg α)) (spu : Bool)
        (sp : α × α × α),
      (roi_process_wake s roi spu sp).1.control_data.gimbal_shutter_retract =
        (match roi with
         | some _ => false
         | none => s.control_data.gimbal_shutter_retract)) := by
  refine ⟨?_, ?_, ?_, ?_⟩
  · intro s cmd hsys hcomp
    rcases hcomp with hc | hc <;>
    · by_cases h205 : cmd.command = VEHICLE_CMD_DO_MOUNT_CONTROL
      · by_cases hret : cppIntF cmd.param7 = VEHICLE_MOUNT_MODE_RETRACT
        · simp [processCommand, hsys, hc, h205, hret]
        · simp only [processCommand, hsys, hc, h205, hret,
            mavlinkTargetingRecord, control_data_set_lon_lat]
          split_ifs <;> simp_all
      · by_cases h204 : cmd.command = VEHICLE_CMD_DO_MOUNT_CONFIGURE
        · have hne : VEHICLE_CMD_DO_MOUNT_CONFIGURE ≠
              VEHICLE_CMD_DO_MOUNT_CONTROL := by decide
          simp [processCommand, hsys, hc, h204, hne]
        · simp [processCommand, hsys, hc, h205, h204]
  · intro s w
    exact v2_wake_retract_flag g pi s w
  · intro sysid compid l
    apply v2_run_retract_flag_false
    rfl
  · intro s roi spu sp
    rcases hroi : roi with _ | r <;>
      simp only [roi_process_wake, hroi] <;>
      cases spu <;> split_ifs <;>
      simp [roi_adapter_roi_retract_flag]

/-- C8 witness for the amended claim: the legacy retract command raises the
flag (and only it), and a gimbal-manager run through an attitude-set cycle
and an ROI cycle keeps the flag false. -/
theorem claim_C8_witness :
    (testCmdRetract.target_system = testCmdState.mav_sys_id ∧
     (testCmdRetract.target_component = testCmdState.mav_comp_id ∨
       testCmdRetract.target_component = 0)) ∧
    ((processCommand (3 : ℚ) testCmdState
        testCmdRetract).state.control_data.gimbal_shutter_retract =
      decide (testCmdRetract.command = VEHICLE_CMD_DO_MOUNT_CONTROL ∧
        cppIntF testCmdRetract.param7 = VEHICLE_MOUNT_MODE_RETRACT)) ∧
    ((v2_run testGeo 3 (v2InitialState ℚ 1 1)
        [testWakeAtt, testWakeRoiNone]).control_data.gimbal_shutter_retract =
      false) :=
  ⟨⟨by decide, by decide⟩,
   (claim_C8_retract_flag_semantics testGeo 3).1 testCmdState testCmdRetract
     (by decide) (by decide),
   (claim_C8_retract_flag_semantics testGeo 3).2.2.1 1 1
     [testWakeAtt, testWakeRoiNone]⟩

/-- C9: an accepted `None` ROI yields a `Neutral` record and remembers mode
`None` in both ROI-capable adapters; in the gimbal-manager adapter the
target-set flag additionally clears on `None`, and across any wake sequence
it equals "the most recently accepted ROI mode is not None" (unchanged when
no ROI was ever accepted, hence false from the initial state). -/
theorem claim_C9_roi_none_and_target_flag {α : Type} [LinearOrderedField α]
    [FloorRing α] (g : GeoPrims α) (pi : α) :
    (∀ (s : RoiState α) (r : RoiMsg α) (sp : α × α × α), r.mode = ROI_NONE →
      (roi_process_roi s r sp).1.control_data.type = CDType.Neutral ∧
      (roi_process_roi s r sp).1.cur_roi_mode = ROI_NONE ∧
      (roi_process_roi s r sp).2 = true) ∧
    (∀ (s : V2State α) (r : RoiMsg α) (sp : α × α × α) (gpos : GlobalPos α),
      r.mode = ROI_NONE →
      (v2_process_roi g pi s r sp gpos).1.control_data.type =
        CDType.Neutral ∧
      (v2_process_roi g pi s r sp gpos).1.cur_roi_mode = ROI_NONE ∧
      (v2_process_roi g pi s r sp gpos).1.is_roi_set = false ∧
      (v2_process_roi g pi s r sp gpos).2.1 = true) ∧
    (∀ (l : List (V2Wake α)) (s : V2State α),
      (v2_run g pi s l).is_roi_set =
        (match lastAcceptedRoiMode l with
         | some m => decide (m ≠ ROI_NONE)
         | none => s.is_roi_set)) ∧
    (∀ (sysid compid : ℕ), (v2InitialState α sysid compid).is_roi_set = false) := by
  refine ⟨?_, ?_, ?_, ?_⟩
  · intro s r sp h
    refine ⟨?_, ?_, ?_⟩ <;> simp [roi_process_roi, h]
  · intro s r sp gpos h
    refine ⟨?_, ?_, ?_, ?_⟩ <;> simp [v2_process_roi, h]
  · intro l s
    exact v2_run_is_roi_state g pi l s
  · intro sysid compid
    rfl

/-- C9 witness: a `None` ROI event from a `Target`-remembering state goes
`Neutral` and clears the memory; a `FixedLocation` wake followed by a
`None` wake leaves the target-set flag false, matching the last accepted
mode. -/
theorem claim_C9_witness :
    (testRoiNone.mode = ROI_NONE) ∧
    ((roi_process_roi testRoiState testRoiNone
        (0, 0, 0)).1.control_data.type = CDType.Neutral ∧
     (roi_process_roi testRoiState testRoiNone (0, 0, 0)).1.cur_roi_mode =
       ROI_NONE ∧
     (roi_process_roi testRoiState testRoiNone (0, 0, 0)).2 = true) ∧
    ((v2_run testGeo 3 (v2InitialState ℚ 1 1)
        [testWakeRoiLocation, testWakeRoiNone]).is_roi_set =
      (match lastAcceptedRoiMode [testWakeRoiLocation, testWakeRoiNone] with
       | some m => decide (m ≠ ROI_NONE)
       | none => (v2InitialState ℚ 1 1).is_roi_set)) :=
  ⟨by decide,
   (claim_C9_roi_none_and_target_flag testGeo 3).1 testRoiState testRoiNone
     (0, 0, 0) (by decide),
   (claim_C9_roi_none_and_target_flag testGeo 3).2.2.1
     [testWakeRoiLocation, testWakeRoiNone] (v2InitialState ℚ 1 1)⟩

end Vmount
